import Mathlib

/-!
Shallow embedding of the renogy-rs protocol core, and theorems checking the
natural-language specification against it.

Machine integers are modelled as `Nat` (with explicit `% 2^w` / masking where
the Rust code truncates); byte buffers (`Vec<u8>`) are `List Nat` whose
elements are intended to be `< 256`; register words (`Vec<u16>`) are
`List Nat` with elements `< 65536`.  `f32` engineering values are modelled
over `ℚ`: the claims settled here depend only on the success/failure
structure and on integer-valued fields, never on float rounding.
-/

namespace Renogy

/-- Errors of `src/error.rs` (`RenogyError`).  The `Io` payload
(`std::io::Error`) is dropped: no claim inspects it. -/
inductive ModbusExceptionCode where
  | illegalFunction
  | illegalDataAddress
  | illegalDataValue
  | slaveDeviceFailure
  | acknowledge
  | slaveDeviceBusy
  | memoryParityError
  | gatewayPathUnavailable
  | gatewayTargetDeviceFailedToRespond
  deriving DecidableEq, Repr

/-- `ModbusExceptionCode::from_u8` of `src/error.rs`. -/
def ModbusExceptionCode.fromU8 (code : Nat) : Option ModbusExceptionCode :=
  match code with
  | 0x01 => some .illegalFunction
  | 0x02 => some .illegalDataAddress
  | 0x03 => some .illegalDataValue
  | 0x04 => some .slaveDeviceFailure
  | 0x05 => some .acknowledge
  | 0x06 => some .slaveDeviceBusy
  | 0x08 => some .memoryParityError
  | 0x0A => some .gatewayPathUnavailable
  | 0x0B => some .gatewayTargetDeviceFailedToRespond
  | _ => none

/-- `RenogyError` of `src/error.rs`. -/
inductive RenogyError where
  | invalidData
  | crcMismatch
  | io
  | modbusException (code : ModbusExceptionCode)
  | unsupportedOperation
  | deviceControlFailed
  | invalidRegisterRange
  | writeOperationFailed
  deriving DecidableEq, Repr

/-- One step of the reflected CRC-16/MODBUS bit loop (polynomial `0x8005`
reflected to `0xA001`): shift right, xor the polynomial if the dropped bit
was set. -/
def crcStep1 (c : Nat) : Nat :=
  if c % 2 = 1 then (c / 2) ^^^ 0xA001 else c / 2

/-- Eight bit-steps: one byte of the reflected CRC loop. -/
def crcStep8 (c : Nat) : Nat :=
  crcStep1 (crcStep1 (crcStep1 (crcStep1 (crcStep1 (crcStep1 (crcStep1 (crcStep1 c)))))))

/-- Absorb one byte: xor it into the low half of the register, then run the
eight bit-steps. -/
def crcUpdate (c b : Nat) : Nat := crcStep8 (c ^^^ b)

/-- Running CRC from an arbitrary initial register value. -/
def crcRun (c : Nat) (data : List Nat) : Nat := data.foldl crcUpdate c

/-- `MODBUS_CRC.checksum` of `src/pdu.rs`: CRC-16/MODBUS (init `0xFFFF`,
reflected in/out, xorout `0`). -/
def checksum (data : List Nat) : Nat := crcRun 0xFFFF data

/-- `FunctionCode` of `src/pdu.rs`. -/
inductive FunctionCode where
  | readHoldingRegisters
  | writeSingleRegister
  | writeMultipleRegisters
  | restoreFactoryDefault
  | clearHistory
  deriving DecidableEq, Repr

/-- The discriminant values of `FunctionCode` (`0x03`, `0x06`, `0x10`,
`0x78`, `0x79`), used by `self.function_code as u8` in `Pdu::serialize`. -/
def FunctionCode.toU8 : FunctionCode → Nat
  | .readHoldingRegisters => 0x03
  | .writeSingleRegister => 0x06
  | .writeMultipleRegisters => 0x10
  | .restoreFactoryDefault => 0x78
  | .clearHistory => 0x79

/-- `FunctionCode::from_u8` of `src/pdu.rs`. -/
def FunctionCode.fromU8 (code : Nat) : Option FunctionCode :=
  match code with
  | 0x03 => some .readHoldingRegisters
  | 0x06 => some .writeSingleRegister
  | 0x10 => some .writeMultipleRegisters
  | 0x78 => some .restoreFactoryDefault
  | 0x79 => some .clearHistory
  | _ => none

/-- `Pdu` of `src/pdu.rs`. -/
structure Pdu where
  address : Nat
  functionCode : FunctionCode
  payload : List Nat
  deriving DecidableEq, Repr

/-- `u16::to_le_bytes` on a (truncated) checksum value. -/
def u16ToLeBytes (x : Nat) : List Nat := [x % 256, x / 256 % 256]

/-- `Pdu::serialize` of `src/pdu.rs`: `[address, fc, payload..]` followed by
the little-endian CRC over that prefix. -/
def Pdu.serialize (p : Pdu) : List Nat :=
  let frame := p.address :: p.functionCode.toU8 :: p.payload
  frame ++ u16ToLeBytes (checksum frame)

/-- `Pdu::deserialize` of `src/pdu.rs`. -/
def Pdu.deserialize (frame : List Nat) : Except RenogyError Pdu :=
  if frame.length < 4 then .error .invalidData
  else
    let data := frame.take (frame.length - 2)
    let crcBytes := frame.drop (frame.length - 2)
    let expectedCrc := checksum data
    let actualCrc := crcBytes.getD 0 0 + 256 * crcBytes.getD 1 0
    if expectedCrc ≠ actualCrc then .error .crcMismatch
    else
      let address := data.getD 0 0
      let functionCodeByte := data.getD 1 0
      if functionCodeByte &&& 0x80 ≠ 0 then
        if data.length ≥ 3 then
          match ModbusExceptionCode.fromU8 (data.getD 2 0) with
          | some modbusException => .error (.modbusException modbusException)
          | none => .error .invalidData
        else .error .invalidData
      else
        match FunctionCode.fromU8 functionCodeByte with
        | none => .error .invalidData
        | some functionCode => .ok ⟨address, functionCode, data.drop 2⟩

lemma testBit15_ge {x : Nat} (h : x.testBit 15 = true) : 32768 ≤ x := by
  by_contra hc
  rw [Nat.testBit_lt_two_pow (by omega : x < 2 ^ 15)] at h
  exact Bool.noConfusion h

lemma xor_a001_ge {k : Nat} (hk : k < 32768) : 32768 ≤ k ^^^ 0xA001 := by
  apply testBit15_ge
  rw [Nat.testBit_xor, Nat.testBit_lt_two_pow (by omega : k < 2 ^ 15)]
  decide

lemma crcStep1_lt {c : Nat} (h : c < 65536) : crcStep1 c < 65536 := by
  unfold crcStep1
  split
  · have h2 : c / 2 ^^^ 0xA001 < 2 ^ 16 := Nat.xor_lt_two_pow (by omega) (by norm_num)
    norm_num at h2
    exact h2
  · omega

lemma crcStep1_inj {a b : Nat} (ha : a < 65536) (hb : b < 65536)
    (h : crcStep1 a = crcStep1 b) : a = b := by
  unfold crcStep1 at h
  by_cases pa : a % 2 = 1 <;> by_cases pb : b % 2 = 1 <;> simp only [pa, pb, if_pos, if_neg,
    reduceIte] at h
  · have hd : a / 2 = b / 2 := by
      have := congrArg (fun z => z ^^^ 0xA001) h
      simpa [Nat.xor_assoc] using this
    omega
  · exfalso
    have h1 : 32768 ≤ a / 2 ^^^ 0xA001 := xor_a001_ge (by omega)
    rw [h] at h1
    omega
  · exfalso
    have h1 : 32768 ≤ b / 2 ^^^ 0xA001 := xor_a001_ge (by omega)
    rw [← h] at h1
    omega
  · omega

lemma crcStep8_lt {c : Nat} (h : c < 65536) : crcStep8 c < 65536 := by
  unfold crcStep8
  exact crcStep1_lt (crcStep1_lt (crcStep1_lt (crcStep1_lt (crcStep1_lt (crcStep1_lt
    (crcStep1_lt (crcStep1_lt h)))))))

lemma crcStep8_inj {a b : Nat} (ha : a < 65536) (hb : b < 65536)
    (h : crcStep8 a = crcStep8 b) : a = b := by
  unfold crcStep8 at h
  have l1 := @crcStep1_lt a ha
  have l2 := crcStep1_lt l1
  have l3 := crcStep1_lt l2
  have l4 := crcStep1_lt l3
  have l5 := crcStep1_lt l4
  have l6 := crcStep1_lt l5
  have l7 := crcStep1_lt l6
  have r1 := @crcStep1_lt b hb
  have r2 := crcStep1_lt r1
  have r3 := crcStep1_lt r2
  have r4 := crcStep1_lt r3
  have r5 := crcStep1_lt r4
  have r6 := crcStep1_lt r5
  have r7 := crcStep1_lt r6
  exact crcStep1_inj ha hb (crcStep1_inj l1 r1 (crcStep1_inj l2 r2 (crcStep1_inj l3 r3
    (crcStep1_inj l4 r4 (crcStep1_inj l5 r5 (crcStep1_inj l6 r6 (crcStep1_inj l7 r7 h)))))))

lemma crcUpdate_lt {c b : Nat} (hc : c < 65536) (hb : b < 256) : crcUpdate c b < 65536 := by
  apply crcStep8_lt
  have h2 : c ^^^ b < 2 ^ 16 := Nat.xor_lt_two_pow (by omega) (by omega)
  norm_num at h2
  exact h2

lemma crcUpdate_inj {c1 c2 b : Nat} (h1 : c1 < 65536) (h2 : c2 < 65536) (hb : b < 256)
    (h : crcUpdate c1 b = crcUpdate c2 b) : c1 = c2 := by
  have hx1 : c1 ^^^ b < 65536 := by
    have h3 : c1 ^^^ b < 2 ^ 16 := Nat.xor_lt_two_pow (by omega) (by omega)
    norm_num at h3
    exact h3
  have hx2 : c2 ^^^ b < 65536 := by
    have h3 : c2 ^^^ b < 2 ^ 16 := Nat.xor_lt_two_pow (by omega) (by omega)
    norm_num at h3
    exact h3
  have hxor : c1 ^^^ b = c2 ^^^ b := crcStep8_inj hx1 hx2 h
  have := congrArg (fun z => z ^^^ b) hxor
  simpa [Nat.xor_assoc] using this

lemma crcRun_lt {l : List Nat} (hl : ∀ b ∈ l, b < 256) :
    ∀ {c : Nat}, c < 65536 → crcRun c l < 65536 := by
  induction l with
  | nil => intro c hc; simpa [crcRun] using hc
  | cons x xs ih =>
    intro c hc
    have hx : x < 256 := hl x (List.mem_cons_self x xs)
    have : crcRun c (x :: xs) = crcRun (crcUpdate c x) xs := rfl
    rw [this]
    exact ih (fun b hb => hl b (List.mem_cons_of_mem x hb)) (crcUpdate_lt hc hx)

lemma crcRun_inj {l : List Nat} (hl : ∀ b ∈ l, b < 256) :
    ∀ {c1 c2 : Nat}, c1 < 65536 → c2 < 65536 → crcRun c1 l = crcRun c2 l → c1 = c2 := by
  induction l with
  | nil => intro c1 c2 _ _ h; simpa [crcRun] using h
  | cons x xs ih =>
    intro c1 c2 h1 h2 h
    have hx : x < 256 := hl x (List.mem_cons_self x xs)
    have hrest : ∀ b ∈ xs, b < 256 := fun b hb => hl b (List.mem_cons_of_mem x hb)
    have hu : crcUpdate c1 x = crcUpdate c2 x :=
      ih hrest (crcUpdate_lt h1 hx) (crcUpdate_lt h2 hx) h
    exact crcUpdate_inj h1 h2 hx hu

lemma checksum_lt {l : List Nat} (hl : ∀ b ∈ l, b < 256) : checksum l < 65536 :=
  crcRun_lt hl (by norm_num)

lemma checksum_append_cons (pre : List Nat) (x : Nat) (suf : List Nat) :
    checksum (pre ++ x :: suf) = crcRun (crcUpdate (crcRun 0xFFFF pre) x) suf := by
  simp [checksum, crcRun, List.foldl_append]

/-- CRC-16/MODBUS detects every single-byte substitution: the checksums of two
byte strings differing in exactly one byte differ. -/
lemma checksum_ne_of_byte_ne {pre suf : List Nat} {x y : Nat}
    (hpre : ∀ b ∈ pre, b < 256) (hsuf : ∀ b ∈ suf, b < 256)
    (hx : x < 256) (hy : y < 256) (hxy : x ≠ y) :
    checksum (pre ++ x :: suf) ≠ checksum (pre ++ y :: suf) := by
  intro h
  rw [checksum_append_cons, checksum_append_cons] at h
  have hp : crcRun 0xFFFF pre < 65536 := crcRun_lt hpre (by norm_num)
  have hu : crcUpdate (crcRun 0xFFFF pre) x = crcUpdate (crcRun 0xFFFF pre) y :=
    crcRun_inj hsuf (crcUpdate_lt hp hx) (crcUpdate_lt hp hy) h
  have hxe : crcRun 0xFFFF pre ^^^ x < 65536 := by
    have h3 : crcRun 0xFFFF pre ^^^ x < 2 ^ 16 := Nat.xor_lt_two_pow (by omega) (by omega)
    norm_num at h3
    exact h3
  have hye : crcRun 0xFFFF pre ^^^ y < 65536 := by
    have h3 : crcRun 0xFFFF pre ^^^ y < 2 ^ 16 := Nat.xor_lt_two_pow (by omega) (by omega)
    norm_num at h3
    exact h3
  have hxor : crcRun 0xFFFF pre ^^^ x = crcRun 0xFFFF pre ^^^ y := crcStep8_inj hxe hye hu
  have := congrArg (fun z => crcRun 0xFFFF pre ^^^ z) hxor
  apply hxy
  simpa [← Nat.xor_assoc] using this

lemma toU8_lt (fc : FunctionCode) : fc.toU8 < 256 := by cases fc <;> decide

lemma toU8_hibit (fc : FunctionCode) : fc.toU8 &&& 0x80 = 0 := by cases fc <;> decide

lemma fromU8_toU8 (fc : FunctionCode) : FunctionCode.fromU8 fc.toU8 = some fc := by
  cases fc <;> rfl

/-- C1: for every PDU frame (any slave address, any recognized function code,
any payload of bytes), deserializing the bytes produced by serializing it
returns exactly the original frame. -/
theorem pdu_deserialize_serialize (p : Pdu) (ha : p.address < 256)
    (hp : ∀ b ∈ p.payload, b < 256) :
    Pdu.deserialize p.serialize = .ok p := by
  have hd : ∀ b ∈ (p.address :: p.functionCode.toU8 :: p.payload), b < 256 := by
    intro b hb
    rcases List.mem_cons.mp hb with h | hb
    · omega
    rcases List.mem_cons.mp hb with h | hb
    · have := toU8_lt p.functionCode; omega
    · exact hp b hb
  have hcs := checksum_lt hd
  set dl := p.address :: p.functionCode.toU8 :: p.payload with hdl
  have hlen : (dl ++ u16ToLeBytes (checksum dl)).length = dl.length + 2 := by
    simp [u16ToLeBytes]
  have hsub : (dl ++ u16ToLeBytes (checksum dl)).length - 2 = dl.length := by omega
  have htake : (dl ++ u16ToLeBytes (checksum dl)).take (dl.length) = dl :=
    List.take_left dl _
  have hdrop : (dl ++ u16ToLeBytes (checksum dl)).drop (dl.length) = u16ToLeBytes (checksum dl) :=
    List.drop_left dl _
  have hlen4 : ¬ ((dl ++ u16ToLeBytes (checksum dl)).length < 4) := by
    have : 2 ≤ dl.length := by simp [hdl]
    omega
  unfold Pdu.serialize Pdu.deserialize
  rw [← hdl]
  simp only [hsub, htake, hdrop, if_neg hlen4]
  have hact : (u16ToLeBytes (checksum dl)).getD 0 0 + 256 * (u16ToLeBytes (checksum dl)).getD 1 0
      = checksum dl := by
    simp only [u16ToLeBytes, List.getD]
    simp
    omega
  rw [hact]
  simp only [ne_eq, not_true_eq_false, if_neg, ite_false]
  simp only [hdl]
  simp only [List.getD_cons_zero, List.getD_cons_succ]
  rw [if_neg (by simpa using congrArg (¬ · ≠ 0) (toU8_hibit p.functionCode))]
  rw [fromU8_toU8]
  rfl

/-- Witness for C1 at the concrete cell-count read request of the spec's
scenario: slave 1, function `0x03`, payload `13 88 00 01`. -/
theorem pdu_deserialize_serialize_witness :
    (1 : Nat) < 256 ∧ (∀ b ∈ [19, 136, 0, 1], b < 256) ∧
      Pdu.deserialize (Pdu.serialize ⟨1, .readHoldingRegisters, [19, 136, 0, 1]⟩)
        = .ok ⟨1, .readHoldingRegisters, [19, 136, 0, 1]⟩ :=
  ⟨by norm_num, by decide,
    pdu_deserialize_serialize ⟨1, .readHoldingRegisters, [19, 136, 0, 1]⟩
      (by norm_num) (by decide)⟩

/-- C2: changing any single byte of a serialized frame at an index outside
the trailing two CRC bytes, to any different byte value, makes
`Pdu::deserialize` fail with `CrcMismatch` (the CRC check runs before any
function-code or exception interpretation). -/
theorem pdu_deserialize_tampered_crcMismatch (p : Pdu) (i b : Nat)
    (ha : p.address < 256) (hp : ∀ x ∈ p.payload, x < 256) (hb : b < 256)
    (hi : i < p.serialize.length - 2) (hne : b ≠ p.serialize.getD i 0) :
    Pdu.deserialize (p.serialize.set i b) = .error .crcMismatch := by
  have hd : ∀ x ∈ (p.address :: p.functionCode.toU8 :: p.payload), x < 256 := by
    intro x hx
    rcases List.mem_cons.mp hx with h | hx
    · omega
    rcases List.mem_cons.mp hx with h | hx
    · have := toU8_lt p.functionCode; omega
    · exact hp x hx
  have hcs := checksum_lt hd
  set dl := p.address :: p.functionCode.toU8 :: p.payload with hdl
  have hser : p.serialize = dl ++ u16ToLeBytes (checksum dl) := rfl
  have hlen : (dl ++ u16ToLeBytes (checksum dl)).length = dl.length + 2 := by
    simp [u16ToLeBytes]
  have hi' : i < dl.length := by
    rw [hser] at hi
    omega
  -- the tampered frame splits into tampered data and intact CRC bytes
  have hsetlen : ((dl ++ u16ToLeBytes (checksum dl)).set i b).length - 2 = dl.length := by
    rw [List.length_set]
    omega
  have htake : ((dl ++ u16ToLeBytes (checksum dl)).set i b).take dl.length = dl.set i b := by
    rw [List.set_take, List.take_left]
  have hdrop : ((dl ++ u16ToLeBytes (checksum dl)).set i b).drop dl.length
      = u16ToLeBytes (checksum dl) := by
    rw [List.drop_set_of_lt _ _ hi', List.drop_left]
  have hlen4 : ¬ (((dl ++ u16ToLeBytes (checksum dl)).set i b).length < 4) := by
    rw [List.length_set]
    have : 2 ≤ dl.length := by simp [hdl]
    omega
  -- the old byte at index i
  have hold : p.serialize.getD i 0 = dl[i] := by
    rw [hser, List.getD_append _ _ _ _ hi', List.getD_eq_getElem _ _ hi']
  -- the two checksums differ: CRC-16 detects any single-byte substitution
  have hdecomp : dl = dl.take i ++ dl[i] :: dl.drop (i + 1) := by
    conv_lhs => rw [← List.take_append_drop i dl]
    rw [List.drop_eq_getElem_cons hi']
  have hsetdecomp : dl.set i b = dl.take i ++ b :: dl.drop (i + 1) := by
    rw [List.set_eq_take_append_cons_drop, if_pos hi']
  have hccne : checksum (dl.set i b) ≠ checksum dl := by
    rw [hsetdecomp]
    conv_rhs => rw [hdecomp]
    exact checksum_ne_of_byte_ne (fun x hx => hd x (List.take_subset i dl hx))
      (fun x hx => hd x (List.drop_subset (i + 1) dl hx)) hb
      (hd dl[i] (List.getElem_mem hi')) (by rw [hold] at hne; exact hne)
  have hact : (u16ToLeBytes (checksum dl)).getD 0 0 + 256 * (u16ToLeBytes (checksum dl)).getD 1 0
      = checksum dl := by
    simp only [u16ToLeBytes, List.getD]
    simp
    omega
  rw [hser]
  unfold Pdu.deserialize
  simp only [hsetlen, htake, hdrop, if_neg hlen4, hact]
  rw [if_pos hccne]

/-- Witness for C2: tampering the function-code byte (index 1) of the
serialized cell-count request yields `CrcMismatch`. -/
theorem pdu_deserialize_tampered_crcMismatch_witness :
    (6 : Nat) < 256 ∧
      1 < (Pdu.serialize ⟨1, .readHoldingRegisters, [19, 136, 0, 1]⟩).length - 2 ∧
      6 ≠ (Pdu.serialize ⟨1, .readHoldingRegisters, [19, 136, 0, 1]⟩).getD 1 0 ∧
      Pdu.deserialize ((Pdu.serialize ⟨1, .readHoldingRegisters, [19, 136, 0, 1]⟩).set 1 6)
        = .error .crcMismatch :=
  ⟨by norm_num, by decide, by decide,
    pdu_deserialize_tampered_crcMismatch ⟨1, .readHoldingRegisters, [19, 136, 0, 1]⟩ 1 6
      (by norm_num) (by decide) (by norm_num) (by decide) (by decide)⟩

/-- `CellVoltageAlarm` of `src/alarm.rs`; `Normal` is the `Default`. -/
inductive CellVoltageAlarm where
  | normal
  | overVoltage
  | underVoltage
  deriving DecidableEq, Repr

/-- `CellVoltageAlarms` of `src/alarm.rs` (a 16-entry array, modelled as a
list of length 16). -/
structure CellVoltageAlarms where
  alarms : List CellVoltageAlarm
  deriving DecidableEq, Repr

/-- `CellVoltageAlarms::from_bits` of `src/alarm.rs`: start from all-`Normal`,
set `UnderVoltage` for each low bit `i`, then set `OverVoltage` for each high
bit `i + 16` (the two in-place loops become two `mapIdx` passes). -/
def CellVoltageAlarms.from_bits (value : Nat) : CellVoltageAlarms :=
  let alarms := List.replicate 16 CellVoltageAlarm.normal
  let alarms := alarms.mapIdx fun i a =>
    if (value >>> i) &&& 1 = 1 then CellVoltageAlarm.underVoltage else a
  let alarms := alarms.mapIdx fun i a =>
    if (value >>> (i + 16)) &&& 1 = 1 then CellVoltageAlarm.overVoltage else a
  ⟨alarms⟩

/-- `CellTemperatureAlarm` of `src/alarm.rs`. -/
inductive CellTemperatureAlarm where
  | normal
  | overTemperature
  | underTemperature
  deriving DecidableEq, Repr

/-- `CellTemperatureAlarms` of `src/alarm.rs`. -/
structure CellTemperatureAlarms where
  alarms : List CellTemperatureAlarm
  deriving DecidableEq, Repr

/-- `CellTemperatureAlarms::from_bits` of `src/alarm.rs`. -/
def CellTemperatureAlarms.from_bits (value : Nat) : CellTemperatureAlarms :=
  let alarms := List.replicate 16 CellTemperatureAlarm.normal
  let alarms := alarms.mapIdx fun i a =>
    if (value >>> i) &&& 1 = 1 then CellTemperatureAlarm.underTemperature else a
  let alarms := alarms.mapIdx fun i a =>
    if (value >>> (i + 16)) &&& 1 = 1 then CellTemperatureAlarm.overTemperature else a
  ⟨alarms⟩

/-- `OtherAlarmInfo` of `src/alarm.rs`: a `bitflags` u32 wrapper; only the
raw word is stored.  Its defined-flag mask (bits 31..26, 21, 19) is
`0xFC280000`. -/
structure OtherAlarmInfo where
  bits : Nat
  deriving DecidableEq, Repr

/-- `bitflags`-generated `from_bits_truncate`: keep only defined flag bits. -/
def OtherAlarmInfo.from_bits_truncate (v : Nat) : OtherAlarmInfo :=
  ⟨v &&& 0xFC280000⟩

/-- `Status1` of `src/alarm.rs`: all 16 bits carry defined flags. -/
structure Status1 where
  bits : Nat
  deriving DecidableEq, Repr

/-- `from_bits_truncate` for `Status1` (mask `0xFFFF`: every bit defined). -/
def Status1.from_bits_truncate (v : Nat) : Status1 :=
  ⟨v &&& 0xFFFF⟩

/-- `Status2` of `src/alarm.rs`; defined bits 15..13, 11, 8..0 give mask
`0xE9FF`. -/
structure Status2 where
  bits : Nat
  deriving DecidableEq, Repr

/-- `from_bits_truncate` for `Status2`. -/
def Status2.from_bits_truncate (v : Nat) : Status2 :=
  ⟨v &&& 0xE9FF⟩

/-- `Status3` of `src/alarm.rs` (per-cell voltage-read error bits, all 16
defined). -/
structure Status3 where
  bits : Nat
  deriving DecidableEq, Repr

/-- `from_bits_truncate` for `Status3`. -/
def Status3.from_bits_truncate (v : Nat) : Status3 :=
  ⟨v &&& 0xFFFF⟩

/-- `CellVoltageError` of `src/alarm.rs`. -/
inductive CellVoltageError where
  | normal
  | error
  deriving DecidableEq, Repr

/-- `CellVoltageErrors` of `src/alarm.rs`. -/
structure CellVoltageErrors where
  errors : List CellVoltageError
  deriving DecidableEq, Repr

/-- `CellVoltageErrors::from_bits` of `src/alarm.rs`. -/
def CellVoltageErrors.from_bits (value : Nat) : CellVoltageErrors :=
  ⟨(List.replicate 16 CellVoltageError.normal).mapIdx fun i e =>
    if (value >>> i) &&& 1 = 1 then CellVoltageError.error else e⟩

/-- `ChargeDischargeStatus` of `src/alarm.rs`; defined bits 7..3 give mask
`0xF8`. -/
structure ChargeDischargeStatus where
  bits : Nat
  deriving DecidableEq, Repr

/-- `from_bits_truncate` for `ChargeDischargeStatus`. -/
def ChargeDischargeStatus.from_bits_truncate (v : Nat) : ChargeDischargeStatus :=
  ⟨v &&& 0xF8⟩

/-- `Value` of `src/registers.rs`.  The `uom` `f32` quantities
(`ElectricPotential` in volts, `ElectricCurrent` in amperes,
`ThermodynamicTemperature` in degrees Celsius) are modelled as `ℚ`; `String`
is modelled as its byte list (`String::from_utf8_lossy` is not inspected by
any claim). -/
inductive Value where
  | electricPotential (volts : ℚ)
  | electricCurrent (amperes : ℚ)
  | thermodynamicTemperature (degreesCelsius : ℚ)
  | integer (n : Nat)
  | cellVoltageAlarms (a : CellVoltageAlarms)
  | cellTemperatureAlarms (a : CellTemperatureAlarms)
  | otherAlarmInfo (a : OtherAlarmInfo)
  | status1 (s : Status1)
  | status2 (s : Status2)
  | status3 (s : Status3)
  | cellVoltageErrors (e : CellVoltageErrors)
  | chargeDischargeStatus (s : ChargeDischargeStatus)
  | string (bytes : List Nat)
  deriving DecidableEq, Repr

set_option maxHeartbeats 1600000 in
/-- `Register` of `src/registers.rs`. -/
inductive Register where
  | cellCount
  | cellVoltage (n : Nat)
  | cellTemperatureCount
  | cellTemperature (n : Nat)
  | bmsTemperature
  | environmentTemperatureCount
  | environmentTemperature (n : Nat)
  | heaterTemperatureCount
  | heaterTemperature (n : Nat)
  | current
  | moduleVoltage
  | remainingCapacity
  | totalCapacity
  | cycleNumber
  | chargeVoltageLimit
  | dischargeVoltageLimit
  | chargeCurrentLimit
  | dischargeCurrentLimit
  | cellVoltageAlarmInfo
  | cellTemperatureAlarmInfo
  | otherAlarmInfo
  | status1
  | status2
  | status3
  | chargeDischargeStatus
  | snNumber
  | manufactureVersion
  | mainlineVersion
  | communicationProtocolVersion
  | batteryName
  | softwareVersion
  | manufacturerName
  | cellOverVoltageLimit
  | cellHighVoltageLimit
  | cellLowVoltageLimit
  | cellUnderVoltageLimit
  | chargeOverTemperatureLimit
  | chargeHighTemperatureLimit
  | chargeLowTemperatureLimit
  | chargeUnderTemperatureLimit
  | chargeOver2CurrentLimit
  | chargeOver1CurrentLimit
  | chargeHighCurrentLimit
  | moduleOverVoltageLimit
  | moduleHighVoltageLimit
  | moduleLowVoltageLimit
  | moduleUnderVoltageLimit
  | dischargeOverTemperatureLimit
  | dischargeHighTemperatureLimit
  | dischargeLowTemperatureLimit
  | dischargeUnderTemperatureLimit
  | dischargeOver2CurrentLimit
  | dischargeOver1CurrentLimit
  | dischargeHighCurrentLimit
  | shutdownCommand
  | deviceId
  | lockControl
  | testReady
  | uniqueIdentificationCode
  | chargePowerSetting
  | dischargePowerSetting
  | acpBroadcast
  | acpConfigure
  | acpShake
  deriving Repr

/-- `Register::address` of `src/registers.rs`. -/
def Register.address : Register → Nat
  | .cellCount => 5000
  | .cellVoltage n => 5000 + n
  | .cellTemperatureCount => 5017
  | .cellTemperature n => 5017 + n
  | .bmsTemperature => 5035
  | .environmentTemperatureCount => 5036
  | .environmentTemperature n => 5036 + n
  | .heaterTemperatureCount => 5039
  | .heaterTemperature n => 5039 + n
  | .current => 5042
  | .moduleVoltage => 5043
  | .remainingCapacity => 5044
  | .totalCapacity => 5046
  | .cycleNumber => 5048
  | .chargeVoltageLimit => 5049
  | .dischargeVoltageLimit => 5050
  | .chargeCurrentLimit => 5051
  | .dischargeCurrentLimit => 5052
  | .cellVoltageAlarmInfo => 5100
  | .cellTemperatureAlarmInfo => 5102
  | .otherAlarmInfo => 5104
  | .status1 => 5106
  | .status2 => 5107
  | .status3 => 5108
  | .chargeDischargeStatus => 5109
  | .snNumber => 5110
  | .manufactureVersion => 5118
  | .mainlineVersion => 5119
  | .communicationProtocolVersion => 5121
  | .batteryName => 5122
  | .softwareVersion => 5130
  | .manufacturerName => 5132
  | .cellOverVoltageLimit => 5200
  | .cellHighVoltageLimit => 5201
  | .cellLowVoltageLimit => 5202
  | .cellUnderVoltageLimit => 5203
  | .chargeOverTemperatureLimit => 5204
  | .chargeHighTemperatureLimit => 5205
  | .chargeLowTemperatureLimit => 5206
  | .chargeUnderTemperatureLimit => 5207
  | .chargeOver2CurrentLimit => 5208
  | .chargeOver1CurrentLimit => 5209
  | .chargeHighCurrentLimit => 5210
  | .moduleOverVoltageLimit => 5211
  | .moduleHighVoltageLimit => 5212
  | .moduleLowVoltageLimit => 5213
  | .moduleUnderVoltageLimit => 5214
  | .dischargeOverTemperatureLimit => 5215
  | .dischargeHighTemperatureLimit => 5216
  | .dischargeLowTemperatureLimit => 5217
  | .dischargeUnderTemperatureLimit => 5218
  | .dischargeOver2CurrentLimit => 5219
  | .dischargeOver1CurrentLimit => 5220
  | .dischargeHighCurrentLimit => 5221
  | .shutdownCommand => 5222
  | .deviceId => 5223
  | .lockControl => 5224
  | .testReady => 5225
  | .uniqueIdentificationCode => 5226
  | .chargePowerSetting => 5228
  | .dischargePowerSetting => 5229
  | .acpBroadcast => 61440
  | .acpConfigure => 61441
  | .acpShake => 61442

/-- `Register::quantity` of `src/registers.rs`. -/
def Register.quantity : Register → Nat
  | .remainingCapacity | .totalCapacity | .cellVoltageAlarmInfo
  | .cellTemperatureAlarmInfo | .otherAlarmInfo | .mainlineVersion => 2
  | .snNumber => 8
  | .batteryName => 8
  | .softwareVersion => 2
  | .manufacturerName => 10
  | .uniqueIdentificationCode => 2
  | _ => 1

/-- `byteorder::BigEndian::read_u16` on a byte slice. -/
def beReadU16 (data : List Nat) : Nat :=
  data.getD 0 0 * 256 + data.getD 1 0

/-- `byteorder::BigEndian::read_u32` on a byte slice. -/
def beReadU32 (data : List Nat) : Nat :=
  data.getD 0 0 * 16777216 + data.getD 1 0 * 65536 + data.getD 2 0 * 256 + data.getD 3 0

/-- `byteorder::BigEndian::read_i16`: the u16 word reinterpreted as two's
complement. -/
def beReadI16 (data : List Nat) : Int :=
  let x := beReadU16 data
  if x < 32768 then (x : Int) else (x : Int) - 65536

/-- Embed a machine integer into `ℚ` (the `as f32` widening before unit
scaling), via `mkRat` so that concrete values kernel-reduce. -/
def intQ (n : Int) : ℚ := mkRat n 1

/-- `Register::parse_value` of `src/registers.rs`.  Scale factors follow the
source (`0.1` V/°C, `0.01` A, `0.001` Ah), over `ℚ` instead of `f32`. -/
def Register.parse_value (r : Register) (data : List Nat) : Value :=
  match r with
  | .cellCount => .integer (beReadU16 data)
  | .cellVoltage _ => .electricPotential (intQ (beReadU16 data) * (1 / 10))
  | .cellTemperatureCount => .integer (beReadU16 data)
  | .cellTemperature _ => .thermodynamicTemperature (intQ (beReadU16 data) * (1 / 10))
  | .bmsTemperature => .thermodynamicTemperature (intQ (beReadU16 data) * (1 / 10))
  | .environmentTemperatureCount => .integer (beReadU16 data)
  | .environmentTemperature _ => .thermodynamicTemperature (intQ (beReadU16 data) * (1 / 10))
  | .heaterTemperatureCount => .integer (beReadU16 data)
  | .heaterTemperature _ => .thermodynamicTemperature (intQ (beReadU16 data) * (1 / 10))
  | .current => .electricCurrent (intQ (beReadI16 data) * (1 / 100))
  | .moduleVoltage => .electricPotential (intQ (beReadU16 data) * (1 / 10))
  | .remainingCapacity => .electricCurrent (intQ (beReadU32 data) * (1 / 1000))
  | .totalCapacity => .electricCurrent (intQ (beReadU32 data) * (1 / 1000))
  | .cycleNumber => .integer (beReadU16 data)
  | .chargeVoltageLimit => .electricPotential (intQ (beReadU16 data) * (1 / 10))
  | .dischargeVoltageLimit => .electricPotential (intQ (beReadU16 data) * (1 / 10))
  | .chargeCurrentLimit => .electricCurrent (intQ (beReadU16 data) * (1 / 100))
  | .dischargeCurrentLimit => .electricCurrent (intQ (beReadI16 data) * (1 / 100))
  | .cellVoltageAlarmInfo => .cellVoltageAlarms (CellVoltageAlarms.from_bits (beReadU32 data))
  | .cellTemperatureAlarmInfo =>
      .cellTemperatureAlarms (CellTemperatureAlarms.from_bits (beReadU32 data))
  | .otherAlarmInfo => .otherAlarmInfo (OtherAlarmInfo.from_bits_truncate (beReadU32 data))
  | .status1 => .status1 (Status1.from_bits_truncate (beReadU16 data))
  | .status2 => .status2 (Status2.from_bits_truncate (beReadU16 data))
  | .status3 => .status3 (Status3.from_bits_truncate (beReadU16 data))
  | .chargeDischargeStatus =>
      .chargeDischargeStatus (ChargeDischargeStatus.from_bits_truncate (beReadU16 data))
  | .snNumber | .manufactureVersion | .mainlineVersion | .communicationProtocolVersion
  | .batteryName | .softwareVersion | .manufacturerName => .string data
  | .cellOverVoltageLimit | .cellHighVoltageLimit | .cellLowVoltageLimit
  | .cellUnderVoltageLimit | .moduleOverVoltageLimit | .moduleHighVoltageLimit
  | .moduleLowVoltageLimit | .moduleUnderVoltageLimit =>
      .electricPotential (intQ (beReadU16 data) * (1 / 10))
  | .chargeOverTemperatureLimit | .chargeHighTemperatureLimit | .chargeLowTemperatureLimit
  | .chargeUnderTemperatureLimit | .dischargeOverTemperatureLimit
  | .dischargeHighTemperatureLimit | .dischargeLowTemperatureLimit
  | .dischargeUnderTemperatureLimit =>
      .thermodynamicTemperature (intQ (beReadI16 data) * (1 / 10))
  | .chargeOver2CurrentLimit | .chargeOver1CurrentLimit | .chargeHighCurrentLimit
  | .dischargeOver2CurrentLimit | .dischargeOver1CurrentLimit | .dischargeHighCurrentLimit =>
      .electricCurrent (intQ (beReadU16 data) * (1 / 100))
  | .shutdownCommand | .deviceId | .lockControl | .testReady | .chargePowerSetting
  | .dischargePowerSetting => .integer (beReadU16 data)
  | .uniqueIdentificationCode => .integer (beReadU32 data)
  | .acpBroadcast | .acpConfigure | .acpShake => .integer (beReadU16 data)

/-- `Register::is_writable` of `src/registers.rs`. -/
def Register.is_writable : Register → Bool
  | .chargeVoltageLimit | .dischargeVoltageLimit | .chargeCurrentLimit
  | .dischargeCurrentLimit
  | .cellOverVoltageLimit | .cellHighVoltageLimit | .cellLowVoltageLimit
  | .cellUnderVoltageLimit
  | .chargeOverTemperatureLimit | .chargeHighTemperatureLimit
  | .chargeLowTemperatureLimit | .chargeUnderTemperatureLimit
  | .chargeOver2CurrentLimit | .chargeOver1CurrentLimit | .chargeHighCurrentLimit
  | .moduleOverVoltageLimit | .moduleHighVoltageLimit | .moduleLowVoltageLimit
  | .moduleUnderVoltageLimit
  | .dischargeOverTemperatureLimit | .dischargeHighTemperatureLimit
  | .dischargeLowTemperatureLimit | .dischargeUnderTemperatureLimit
  | .dischargeOver2CurrentLimit | .dischargeOver1CurrentLimit
  | .dischargeHighCurrentLimit
  | .shutdownCommand | .deviceId | .lockControl | .testReady
  | .uniqueIdentificationCode | .chargePowerSetting | .dischargePowerSetting
  | .acpBroadcast | .acpConfigure | .acpShake => true
  | _ => false

/-- Truncation toward zero of a rational (how Rust casts a float to an
integer type, before saturation). -/
def ratTrunc (q : ℚ) : Int := Int.tdiv q.num q.den

/-- Rust `f32 as u16`: truncate toward zero, saturating into `0..=65535`. -/
def ratAsU16 (q : ℚ) : Nat := (max 0 (min 65535 (ratTrunc q))).toNat

/-- Rust `f32 as i16`: truncate toward zero, saturating into
`-32768..=32767`. -/
def ratAsI16 (q : ℚ) : Int := max (-32768) (min 32767 (ratTrunc q))

/-- Rust `f32 as u32`: truncate toward zero, saturating into
`0..=4294967295`. -/
def ratAsU32 (q : ℚ) : Nat := (max 0 (min 4294967295 (ratTrunc q))).toNat

/-- `byteorder::BigEndian::write_u16` into a fresh 2-byte buffer. -/
def writeU16BE (x : Nat) : List Nat := [x / 256 % 256, x % 256]

/-- `byteorder::BigEndian::write_u32` into a fresh 4-byte buffer. -/
def writeU32BE (x : Nat) : List Nat :=
  [x / 16777216 % 256, x / 65536 % 256, x / 256 % 256, x % 256]

/-- `byteorder::BigEndian::write_i16`: two's-complement encoding. -/
def writeI16BE (x : Int) : List Nat := writeU16BE (x % 65536).toNat

/-- `Register::serialize_value` of `src/registers.rs`.  The source matches on
the pair `(self, value)`; here the match is curried register-first, each
register arm accepting exactly the value variants of its source arm and
falling through to `UnsupportedOperation` otherwise.  Each arm fills the
register's `quantity() * 2`-byte buffer; `*value as u16` is `% 65536`. -/
def Register.serialize_value (r : Register) (v : Value) : Except RenogyError (List Nat) :=
  match r with
  | .chargeVoltageLimit | .dischargeVoltageLimit =>
    match v with
    | .electricPotential voltage => .ok (writeU16BE (ratAsU16 (voltage * 10)))
    | _ => .error .unsupportedOperation
  | .chargeCurrentLimit | .dischargeCurrentLimit =>
    match v with
    | .electricCurrent curr => .ok (writeU16BE (ratAsU16 (curr * 100)))
    | _ => .error .unsupportedOperation
  | .cycleNumber =>
    match v with
    | .integer value => .ok (writeU16BE (value % 65536))
    | _ => .error .unsupportedOperation
  | .remainingCapacity | .totalCapacity =>
    match v with
    | .electricCurrent curr => .ok (writeU32BE (ratAsU32 (curr * 1000)))
    | _ => .error .unsupportedOperation
  | .cellOverVoltageLimit | .cellHighVoltageLimit | .cellLowVoltageLimit
  | .cellUnderVoltageLimit | .moduleOverVoltageLimit | .moduleHighVoltageLimit
  | .moduleLowVoltageLimit | .moduleUnderVoltageLimit =>
    match v with
    | .electricPotential voltage => .ok (writeU16BE (ratAsU16 (voltage * 10)))
    | _ => .error .unsupportedOperation
  | .chargeOverTemperatureLimit | .chargeHighTemperatureLimit
  | .chargeLowTemperatureLimit | .chargeUnderTemperatureLimit
  | .dischargeOverTemperatureLimit | .dischargeHighTemperatureLimit
  | .dischargeLowTemperatureLimit | .dischargeUnderTemperatureLimit =>
    match v with
    | .thermodynamicTemperature temp => .ok (writeI16BE (ratAsI16 (temp * 10)))
    | _ => .error .unsupportedOperation
  | .chargeOver2CurrentLimit | .chargeOver1CurrentLimit | .chargeHighCurrentLimit
  | .dischargeOver2CurrentLimit | .dischargeOver1CurrentLimit
  | .dischargeHighCurrentLimit =>
    match v with
    | .electricCurrent curr => .ok (writeU16BE (ratAsU16 (curr * 100)))
    | _ => .error .unsupportedOperation
  | .shutdownCommand | .deviceId | .lockControl | .testReady | .chargePowerSetting
  | .dischargePowerSetting | .acpBroadcast | .acpConfigure | .acpShake =>
    match v with
    | .integer value => .ok (writeU16BE (value % 65536))
    | _ => .error .unsupportedOperation
  | .uniqueIdentificationCode =>
    match v with
    | .integer value => .ok (writeU32BE value)
    | _ => .error .unsupportedOperation
  | _ => .error .unsupportedOperation

/-- Kind tag of a `Value` (which enum variant it is). -/
inductive ValueKind where
  | electricPotential
  | electricCurrent
  | thermodynamicTemperature
  | integer
  | cellVoltageAlarms
  | cellTemperatureAlarms
  | otherAlarmInfo
  | status1
  | status2
  | status3
  | cellVoltageErrors
  | chargeDischargeStatus
  | string
  deriving DecidableEq, Repr

/-- The variant of a `Value`. -/
def Value.kind : Value → ValueKind
  | .electricPotential _ => .electricPotential
  | .electricCurrent _ => .electricCurrent
  | .thermodynamicTemperature _ => .thermodynamicTemperature
  | .integer _ => .integer
  | .cellVoltageAlarms _ => .cellVoltageAlarms
  | .cellTemperatureAlarms _ => .cellTemperatureAlarms
  | .otherAlarmInfo _ => .otherAlarmInfo
  | .status1 _ => .status1
  | .status2 _ => .status2
  | .status3 _ => .status3
  | .cellVoltageErrors _ => .cellVoltageErrors
  | .chargeDischargeStatus _ => .chargeDischargeStatus
  | .string _ => .string

/-- The declared kind of a register: the `Value` variant its `parse_value`
arm produces (`parse_value_kind` below proves this table matches
`parse_value`). -/
def Register.parseKind : Register → ValueKind
  | .cellCount => .integer
  | .cellVoltage _ => .electricPotential
  | .cellTemperatureCount => .integer
  | .cellTemperature _ => .thermodynamicTemperature
  | .bmsTemperature => .thermodynamicTemperature
  | .environmentTemperatureCount => .integer
  | .environmentTemperature _ => .thermodynamicTemperature
  | .heaterTemperatureCount => .integer
  | .heaterTemperature _ => .thermodynamicTemperature
  | .current => .electricCurrent
  | .moduleVoltage => .electricPotential
  | .remainingCapacity => .electricCurrent
  | .totalCapacity => .electricCurrent
  | .cycleNumber => .integer
  | .chargeVoltageLimit => .electricPotential
  | .dischargeVoltageLimit => .electricPotential
  | .chargeCurrentLimit => .electricCurrent
  | .dischargeCurrentLimit => .electricCurrent
  | .cellVoltageAlarmInfo => .cellVoltageAlarms
  | .cellTemperatureAlarmInfo => .cellTemperatureAlarms
  | .otherAlarmInfo => .otherAlarmInfo
  | .status1 => .status1
  | .status2 => .status2
  | .status3 => .status3
  | .chargeDischargeStatus => .chargeDischargeStatus
  | .snNumber => .string
  | .manufactureVersion => .string
  | .mainlineVersion => .string
  | .communicationProtocolVersion => .string
  | .batteryName => .string
  | .softwareVersion => .string
  | .manufacturerName => .string
  | .cellOverVoltageLimit => .electricPotential
  | .cellHighVoltageLimit => .electricPotential
  | .cellLowVoltageLimit => .electricPotential
  | .cellUnderVoltageLimit => .electricPotential
  | .chargeOverTemperatureLimit => .thermodynamicTemperature
  | .chargeHighTemperatureLimit => .thermodynamicTemperature
  | .chargeLowTemperatureLimit => .thermodynamicTemperature
  | .chargeUnderTemperatureLimit => .thermodynamicTemperature
  | .chargeOver2CurrentLimit => .electricCurrent
  | .chargeOver1CurrentLimit => .electricCurrent
  | .chargeHighCurrentLimit => .electricCurrent
  | .moduleOverVoltageLimit => .electricPotential
  | .moduleHighVoltageLimit => .electricPotential
  | .moduleLowVoltageLimit => .electricPotential
  | .moduleUnderVoltageLimit => .electricPotential
  | .dischargeOverTemperatureLimit => .thermodynamicTemperature
  | .dischargeHighTemperatureLimit => .thermodynamicTemperature
  | .dischargeLowTemperatureLimit => .thermodynamicTemperature
  | .dischargeUnderTemperatureLimit => .thermodynamicTemperature
  | .dischargeOver2CurrentLimit => .electricCurrent
  | .dischargeOver1CurrentLimit => .electricCurrent
  | .dischargeHighCurrentLimit => .electricCurrent
  | .shutdownCommand => .integer
  | .deviceId => .integer
  | .lockControl => .integer
  | .testReady => .integer
  | .uniqueIdentificationCode => .integer
  | .chargePowerSetting => .integer
  | .dischargePowerSetting => .integer
  | .acpBroadcast => .integer
  | .acpConfigure => .integer
  | .acpShake => .integer

/-- The `parseKind` table agrees with the variant `parse_value` produces, on
every register and any data. -/
lemma parse_value_kind (r : Register) (data : List Nat) :
    (r.parse_value data).kind = r.parseKind := by
  cases r <;> rfl

set_option maxHeartbeats 3200000 in
set_option maxRecDepth 8192 in
lemma serialize_value_nonwritable_err (r : Register) (v : Value)
    (hw : r.is_writable = false) (h1 : r ≠ .cycleNumber) (h2 : r ≠ .remainingCapacity)
    (h3 : r ≠ .totalCapacity) :
    r.serialize_value v = .error .unsupportedOperation := by
  cases r <;> cases v <;>
    first
      | rfl
      | (exact absurd rfl h1)
      | (exact absurd rfl h2)
      | (exact absurd rfl h3)
      | (exact absurd hw (by decide))

set_option maxHeartbeats 3200000 in
set_option maxRecDepth 8192 in
lemma serialize_value_wrong_kind_err (r : Register) (v : Value)
    (hw : r.is_writable = true) (hk : v.kind ≠ r.parseKind) :
    r.serialize_value v = .error .unsupportedOperation := by
  cases r with
  | cellCount =>
      exfalso; revert hw; decide
  | cellVoltage n =>
      cases v <;> rfl
  | cellTemperatureCount =>
      exfalso; revert hw; decide
  | cellTemperature n =>
      cases v <;> rfl
  | bmsTemperature =>
      exfalso; revert hw; decide
  | environmentTemperatureCount =>
      exfalso; revert hw; decide
  | environmentTemperature n =>
      cases v <;> rfl
  | heaterTemperatureCount =>
      exfalso; revert hw; decide
  | heaterTemperature n =>
      cases v <;> rfl
  | current =>
      exfalso; revert hw; decide
  | moduleVoltage =>
      exfalso; revert hw; decide
  | remainingCapacity =>
      exfalso; revert hw; decide
  | totalCapacity =>
      exfalso; revert hw; decide
  | cycleNumber =>
      exfalso; revert hw; decide
  | chargeVoltageLimit =>
      cases v <;> first | rfl | (exfalso; apply hk; rfl)
  | dischargeVoltageLimit =>
      cases v <;> first | rfl | (exfalso; apply hk; rfl)
  | chargeCurrentLimit =>
      cases v <;> first | rfl | (exfalso; apply hk; rfl)
  | dischargeCurrentLimit =>
      cases v <;> first | rfl | (exfalso; apply hk; rfl)
  | cellVoltageAlarmInfo =>
      exfalso; revert hw; decide
  | cellTemperatureAlarmInfo =>
      exfalso; revert hw; decide
  | otherAlarmInfo =>
      exfalso; revert hw; decide
  | status1 =>
      exfalso; revert hw; decide
  | status2 =>
      exfalso; revert hw; decide
  | status3 =>
      exfalso; revert hw; decide
  | chargeDischargeStatus =>
      exfalso; revert hw; decide
  | snNumber =>
      exfalso; revert hw; decide
  | manufactureVersion =>
      exfalso; revert hw; decide
  | mainlineVersion =>
      exfalso; revert hw; decide
  | communicationProtocolVersion =>
      exfalso; revert hw; decide
  | batteryName =>
      exfalso; revert hw; decide
  | softwareVersion =>
      exfalso; revert hw; decide
  | manufacturerName =>
      exfalso; revert hw; decide
  | cellOverVoltageLimit =>
      cases v <;> first | rfl | (exfalso; apply hk; rfl)
  | cellHighVoltageLimit =>
      cases v <;> first | rfl | (exfalso; apply hk; rfl)
  | cellLowVoltageLimit =>
      cases v <;> first | rfl | (exfalso; apply hk; rfl)
  | cellUnderVoltageLimit =>
      cases v <;> first | rfl | (exfalso; apply hk; rfl)
  | chargeOverTemperatureLimit =>
      cases v <;> first | rfl | (exfalso; apply hk; rfl)
  | chargeHighTemperatureLimit =>
      cases v <;> first | rfl | (exfalso; apply hk; rfl)
  | chargeLowTemperatureLimit =>
      cases v <;> first | rfl | (exfalso; apply hk; rfl)
  | chargeUnderTemperatureLimit =>
      cases v <;> first | rfl | (exfalso; apply hk; rfl)
  | chargeOver2CurrentLimit =>
      cases v <;> first | rfl | (exfalso; apply hk; rfl)
  | chargeOver1CurrentLimit =>
      cases v <;> first | rfl | (exfalso; apply hk; rfl)
  | chargeHighCurrentLimit =>
      cases v <;> first | rfl | (exfalso; apply hk; rfl)
  | moduleOverVoltageLimit =>
      cases v <;> first | rfl | (exfalso; apply hk; rfl)
  | moduleHighVoltageLimit =>
      cases v <;> first | rfl | (exfalso; apply hk; rfl)
  | moduleLowVoltageLimit =>
      cases v <;> first | rfl | (exfalso; apply hk; rfl)
  | moduleUnderVoltageLimit =>
      cases v <;> first | rfl | (exfalso; apply hk; rfl)
  | dischargeOverTemperatureLimit =>
      cases v <;> first | rfl | (exfalso; apply hk; rfl)
  | dischargeHighTemperatureLimit =>
      cases v <;> first | rfl | (exfalso; apply hk; rfl)
  | dischargeLowTemperatureLimit =>
      cases v <;> first | rfl | (exfalso; apply hk; rfl)
  | dischargeUnderTemperatureLimit =>
      cases v <;> first | rfl | (exfalso; apply hk; rfl)
  | dischargeOver2CurrentLimit =>
      cases v <;> first | rfl | (exfalso; apply hk; rfl)
  | dischargeOver1CurrentLimit =>
      cases v <;> first | rfl | (exfalso; apply hk; rfl)
  | dischargeHighCurrentLimit =>
      cases v <;> first | rfl | (exfalso; apply hk; rfl)
  | shutdownCommand =>
      cases v <;> first | rfl | (exfalso; apply hk; rfl)
  | deviceId =>
      cases v <;> first | rfl | (exfalso; apply hk; rfl)
  | lockControl =>
      cases v <;> first | rfl | (exfalso; apply hk; rfl)
  | testReady =>
      cases v <;> first | rfl | (exfalso; apply hk; rfl)
  | uniqueIdentificationCode =>
      cases v <;> first | rfl | (exfalso; apply hk; rfl)
  | chargePowerSetting =>
      cases v <;> first | rfl | (exfalso; apply hk; rfl)
  | dischargePowerSetting =>
      cases v <;> first | rfl | (exfalso; apply hk; rfl)
  | acpBroadcast =>
      cases v <;> first | rfl | (exfalso; apply hk; rfl)
  | acpConfigure =>
      cases v <;> first | rfl | (exfalso; apply hk; rfl)
  | acpShake =>
      cases v <;> first | rfl | (exfalso; apply hk; rfl)

/-- C3 counterexample: `CycleNumber` is not writable, yet `serialize_value`
on it with an `Integer` value succeeds instead of returning
`UnsupportedOperation` (the same holds for `RemainingCapacity` and
`TotalCapacity`). -/
theorem serialize_value_nonwritable_counterexample :
    Register.is_writable .cycleNumber = false ∧
      Register.serialize_value .cycleNumber (.integer 5) = .ok [0, 5] ∧
      Register.serialize_value .cycleNumber (.integer 5) ≠ .error .unsupportedOperation :=
  ⟨rfl, rfl, by
    intro h
    rw [show Register.serialize_value .cycleNumber (.integer 5) = .ok [0, 5] from rfl] at h
    exact Except.noConfusion h⟩

/-- C3 (amended): `serialize_value` returns `UnsupportedOperation` for every
non-writable register except `CycleNumber`, `RemainingCapacity` and
`TotalCapacity` (which have encode arms despite `is_writable` being false),
and for every writable register paired with a value whose variant differs
from the one `parse_value` produces for that register. -/
theorem serialize_value_unsupported_domain (r : Register) (v : Value) :
    (r.is_writable = false → r ≠ .cycleNumber → r ≠ .remainingCapacity →
      r ≠ .totalCapacity → r.serialize_value v = .error .unsupportedOperation) ∧
    (r.is_writable = true → v.kind ≠ r.parseKind →
      r.serialize_value v = .error .unsupportedOperation) :=
  ⟨fun hw h1 h2 h3 => serialize_value_nonwritable_err r v hw h1 h2 h3,
   fun hw hk => serialize_value_wrong_kind_err r v hw hk⟩

/-- Witness for C3 (amended), on both sides: the read-only `Status1` register
rejects every value, and the writable `ChargeVoltageLimit` register rejects
an `Integer` value. -/
theorem serialize_value_unsupported_domain_witness :
    (Register.is_writable .status1 = false ∧
      Register.serialize_value .status1 (.integer 3) = .error .unsupportedOperation) ∧
      (Register.is_writable .chargeVoltageLimit = true ∧
        Register.serialize_value .chargeVoltageLimit (.integer 3)
          = .error .unsupportedOperation) :=
  ⟨⟨rfl, (serialize_value_unsupported_domain .status1 (.integer 3)).1 rfl
      (fun h => Register.noConfusion h) (fun h => Register.noConfusion h)
      (fun h => Register.noConfusion h)⟩,
    ⟨rfl, (serialize_value_unsupported_domain .chargeVoltageLimit (.integer 3)).2 rfl
      (by decide)⟩⟩

/-- C7: in the cell-voltage-alarm decoding of a 32-bit word, cell `i`
(1-based) is `OverVoltage` whenever bit `i + 15` is set — even if bit
`i - 1` is also set — `UnderVoltage` when only the lower bit is set, and
`Normal` when neither is set. -/
theorem cell_voltage_alarm_over_priority (bits i : Nat) (hb : bits < 4294967296)
    (h1 : 1 ≤ i) (h2 : i ≤ 16) :
    (CellVoltageAlarms.from_bits bits).alarms.getD (i - 1) .normal =
      (if bits >>> (i + 15) &&& 1 = 1 then CellVoltageAlarm.overVoltage
       else if bits >>> (i - 1) &&& 1 = 1 then CellVoltageAlarm.underVoltage
       else CellVoltageAlarm.normal) := by
  have hlt : i - 1 < 16 := by omega
  simp only [CellVoltageAlarms.from_bits]
  rw [List.getD_eq_getElem _ _ (by simp [List.length_mapIdx]; omega)]
  rw [List.getElem_mapIdx, List.getElem_mapIdx, List.getElem_replicate]
  rw [show i - 1 + 16 = i + 15 by omega]

/-- Witness for C7 at the spec's concrete case: `bits = (1 <<< 16) ||| 1`
sets both the over- and under-voltage bits of cell 1, and cell 1 decodes to
`OverVoltage`. -/
theorem cell_voltage_alarm_over_priority_witness :
    (65537 : Nat) < 4294967296 ∧
      (CellVoltageAlarms.from_bits 65537).alarms.getD 0 .normal
        = CellVoltageAlarm.overVoltage :=
  ⟨by norm_num, by
    have h := cell_voltage_alarm_over_priority 65537 1 (by norm_num) (by norm_num) (by norm_num)
    simpa using h⟩

/-- C10: for every single-word writable integer register and every
`Integer` value `v`, `serialize_value` succeeds and encodes `v mod 2^16`
big-endian; values above 65535 are silently truncated, never rejected. -/
theorem serialize_value_integer_truncates (r : Register) (v : Nat)
    (hr : r = .shutdownCommand ∨ r = .deviceId ∨ r = .lockControl ∨ r = .testReady ∨
      r = .chargePowerSetting ∨ r = .dischargePowerSetting ∨ r = .acpBroadcast ∨
      r = .acpConfigure ∨ r = .acpShake)
    (hv : v < 4294967296) :
    r.serialize_value (.integer v) = .ok [v / 256 % 256, v % 256] := by
  have harith1 : v % 65536 / 256 % 256 = v / 256 % 256 := by omega
  have harith2 : v % 65536 % 256 = v % 256 := by omega
  rcases hr with h|h|h|h|h|h|h|h|h <;> subst h <;>
    (show Except.ok (writeU16BE (v % 65536)) =
        (Except.ok [v / 256 % 256, v % 256] : Except RenogyError (List Nat))
     simp only [writeU16BE]
     rw [harith1, harith2])

/-- Witness for C10 at `ShutdownCommand` with `v = 70000 > 65535`:
`70000 mod 2^16 = 4464 = 0x1170`, so the encoding is `[17, 112]` and no
error is raised. -/
theorem serialize_value_integer_truncates_witness :
    (70000 : Nat) < 4294967296 ∧
      Register.serialize_value .shutdownCommand (.integer 70000)
        = .ok [70000 / 256 % 256, 70000 % 256] :=
  ⟨by norm_num,
    serialize_value_integer_truncates .shutdownCommand 70000 (by tauto) (by norm_num)⟩

/-- The lock-protected state of `SampleBuffer` (`BufferInner` of
`src/collector/buffer.rs`): the `VecDeque` with its front at the list head,
plus the capacity.  Polymorphic over the sample type; the source
instantiates it at `BatteryInfo`.  The `Arc<Mutex>` wrapper and the
overflow-log latch carry no sample state. -/
structure SampleBuffer (α : Type) where
  samples : List α
  maxSamples : Nat
  deriving DecidableEq, Repr

/-- `SampleBuffer::new` of `src/collector/buffer.rs`: empty, capacity
`max_samples.max(1)`. -/
def SampleBuffer.new (α : Type) (max_samples : Nat) : SampleBuffer α :=
  ⟨[], max max_samples 1⟩

/-- `SampleBuffer::push` of `src/collector/buffer.rs`: evict the front
(oldest) when full, then append at the back. -/
def SampleBuffer.push {α : Type} (b : SampleBuffer α) (sample : α) : SampleBuffer α :=
  let s := if b.samples.length ≥ b.maxSamples then b.samples.drop 1 else b.samples
  ⟨s ++ [sample], b.maxSamples⟩

/-- `SampleBuffer::extend_front` of `src/collector/buffer.rs`: iterate the
batch in reverse; before each front-push, drop the back element if the
buffer is at capacity. -/
def SampleBuffer.extend_front {α : Type} (b : SampleBuffer α) (samples : List α) :
    SampleBuffer α :=
  samples.reverse.foldl (fun st sample =>
    let s := if st.samples.length ≥ st.maxSamples then st.samples.dropLast else st.samples
    ⟨sample :: s, st.maxSamples⟩) b

/-- `SampleBuffer::drain_all` of `src/collector/buffer.rs`: take everything,
leaving the buffer empty. -/
def SampleBuffer.drain_all {α : Type} (b : SampleBuffer α) : List α × SampleBuffer α :=
  (b.samples, ⟨[], b.maxSamples⟩)

/-- `SampleBuffer::is_empty` of `src/collector/buffer.rs`. -/
def SampleBuffer.is_empty {α : Type} (b : SampleBuffer α) : Bool :=
  b.samples.isEmpty

lemma extend_front_step {α : Type} (b : SampleBuffer α) (x : α) (rest : List α) :
    b.extend_front (x :: rest) =
      (let p := b.extend_front rest
       let s := if p.samples.length ≥ p.maxSamples then p.samples.dropLast else p.samples
       (⟨x :: s, p.maxSamples⟩ : SampleBuffer α)) := by
  simp only [SampleBuffer.extend_front, List.reverse_cons, List.foldl_append, List.foldl_cons,
    List.foldl_nil]

lemma extend_front_maxSamples {α : Type} (b : SampleBuffer α) (batch : List α) :
    (b.extend_front batch).maxSamples = b.maxSamples := by
  induction batch with
  | nil => rfl
  | cons x rest ih => rw [extend_front_step]; simpa using ih

lemma extend_front_take {α : Type} (b : SampleBuffer α) (batch : List α)
    (hN : 1 ≤ b.maxSamples) (hlen : b.samples.length ≤ b.maxSamples) :
    (b.extend_front batch).samples = (batch ++ b.samples).take b.maxSamples := by
  induction batch with
  | nil =>
    simpa [SampleBuffer.extend_front] using (List.take_of_length_le hlen).symm
  | cons x rest ih =>
    rw [extend_front_step]
    simp only []
    rw [extend_front_maxSamples, ih]
    have hlt : ((rest ++ b.samples).take b.maxSamples).length
        = min b.maxSamples (rest.length + b.samples.length) := by
      simp [List.length_take]
    by_cases hc : rest.length + b.samples.length ≥ b.maxSamples
    · rw [if_pos (by omega)]
      rw [List.dropLast_eq_take, List.take_take]
      rw [hlt]
      rw [show min (min b.maxSamples (rest.length + b.samples.length) - 1) b.maxSamples
          = b.maxSamples - 1 by omega]
      rw [show b.maxSamples = (b.maxSamples - 1) + 1 by omega]
      simp only [List.cons_append, List.take_succ_cons, Nat.add_sub_cancel]
    · rw [if_neg (by omega)]
      rw [List.take_of_length_le (by simp; omega), List.cons_append,
        List.take_of_length_le (by simp; omega)]

/-- C9: prepending a batch with `extend_front` onto a buffer holding `old`
(within its capacity `N ≥ 1`) leaves exactly the first `N` elements of
`batch ++ old`: the batch keeps its order at the front and the excess is
dropped from the back. -/
theorem extend_front_prepends_and_caps {α : Type} (b : SampleBuffer α) (batch : List α)
    (hN : 1 ≤ b.maxSamples) (hlen : b.samples.length ≤ b.maxSamples) :
    (b.extend_front batch).samples = (batch ++ b.samples).take b.maxSamples :=
  extend_front_take b batch hN hlen

/-- Witness for C9: capacity 3, old contents `[10, 20]`, batch `[1, 2, 3]`:
the result is `[1, 2, 3]`, i.e. the first 3 elements of the batch followed
by the old contents. -/
theorem extend_front_prepends_and_caps_witness :
    1 ≤ (3 : Nat) ∧ ([10, 20] : List Nat).length ≤ 3 ∧
      (SampleBuffer.extend_front ⟨[10, 20], 3⟩ [1, 2, 3]).samples
        = (([1, 2, 3] ++ [10, 20]).take 3 : List Nat) :=
  ⟨by norm_num, by norm_num,
    extend_front_prepends_and_caps ⟨[10, 20], 3⟩ [1, 2, 3] (by norm_num) (by norm_num)⟩

/-- The cap invariant assumed by the C9 theorem holds for every reachable
buffer: `new` establishes `length ≤ maxSamples` and `push`, `extend_front`
and `drain_all` preserve it. -/
theorem sampleBuffer_cap_invariant {α : Type} :
    (∀ n, (SampleBuffer.new α n).samples.length ≤ (SampleBuffer.new α n).maxSamples) ∧
    (∀ b : SampleBuffer α, ∀ x, 1 ≤ b.maxSamples → b.samples.length ≤ b.maxSamples →
      (b.push x).samples.length ≤ (b.push x).maxSamples) ∧
    (∀ b : SampleBuffer α, ∀ batch, 1 ≤ b.maxSamples → b.samples.length ≤ b.maxSamples →
      (b.extend_front batch).samples.length ≤ (b.extend_front batch).maxSamples) ∧
    (∀ b : SampleBuffer α, (b.drain_all).2.samples.length ≤ (b.drain_all).2.maxSamples) := by
  refine ⟨fun n => by simp [SampleBuffer.new], fun b x hN hlen => ?_,
    fun b batch hN hlen => ?_, fun b => by simp [SampleBuffer.drain_all]⟩
  · simp only [SampleBuffer.push]
    split <;> simp <;> omega
  · rw [extend_front_maxSamples, extend_front_take b batch hN hlen]
    simp [List.length_take]

/-- The response-payload parsing stage of
`Bt2Transport::read_holding_registers` (`src/bt2.rs` lines 264-285), applied
to the payload of a well-framed (already deserialized) response PDU for a
request of `quantity` registers: the first byte is the byte count, then the
register words (`offset = 1 + i * 2`, inlined below) are collected for
`i < quantity`, a word being pushed only when both its bytes are inside the
payload. -/
def bt2ParseReadResponse (quantity : Nat) (payload : List Nat) :
    Except RenogyError (List Nat) :=
  if payload.isEmpty then .error .invalidData
  else
    let byteCount := payload.getD 0 0
    if payload.length < 1 + byteCount then .error .invalidData
    else
      .ok ((List.range quantity).foldl (fun registers i =>
        if 1 + i * 2 + 1 < payload.length then
          registers ++ [payload.getD (1 + i * 2) 0 * 256 + payload.getD (1 + i * 2 + 1) 0]
        else registers) [])

lemma bt2_fold_length (payload : List Nat) (q : Nat) (acc : List Nat) :
    ((List.range q).foldl (fun registers i =>
        if 1 + i * 2 + 1 < payload.length then
          registers ++ [payload.getD (1 + i * 2) 0 * 256 + payload.getD (1 + i * 2 + 1) 0]
        else registers) acc).length
      = acc.length + min q ((payload.length - 1) / 2) := by
  induction q generalizing acc with
  | zero => simp
  | succ n ih =>
    rw [List.range_succ, List.foldl_append, List.foldl_cons, List.foldl_nil]
    by_cases hc : 1 + n * 2 + 1 < payload.length
    · rw [if_pos hc, List.length_append, ih]
      simp only [List.length_singleton]
      omega
    · rw [if_neg hc, ih]
      omega

/-- C8 counterexample: for a request of quantity 2, the well-framed response
payload `[2, 0, 33]` has byte count 2 < 2·2, too short for two words — yet
`read_holding_registers` returns the shortened vector `[33]` instead of
failing with `InvalidData`. -/
theorem bt2_short_payload_counterexample :
    bt2ParseReadResponse 2 [2, 0, 33] = .ok [33] ∧
      bt2ParseReadResponse 2 [2, 0, 33] ≠ .error .invalidData := by
  constructor
  · rfl
  · intro h
    rw [show bt2ParseReadResponse 2 [2, 0, 33] = .ok [33] from rfl] at h
    exact Except.noConfusion h

/-- C8 (amended): the parse fails with `InvalidData` exactly when the
payload is empty or shorter than `1 + byte_count`; otherwise it succeeds
with `min quantity ((payload.length - 1) / 2)` registers — a byte count
that is consistent with the payload but below `2·quantity` yields a
shortened vector, not an error. -/
theorem bt2_read_response_parse (quantity : Nat) (payload : List Nat) :
    (bt2ParseReadResponse quantity payload = .error .invalidData ↔
      payload.length = 0 ∨ payload.length < 1 + payload.getD 0 0) ∧
    (∀ registers, bt2ParseReadResponse quantity payload = .ok registers →
      registers.length = min quantity ((payload.length - 1) / 2)) := by
  constructor
  · unfold bt2ParseReadResponse
    by_cases he : payload.isEmpty
    · simp only [if_pos he]
      have : payload.length = 0 := by simpa [List.isEmpty_iff_length_eq_zero] using he
      simp [this]
    · simp only [if_neg he]
      have hne : payload.length ≠ 0 := by
        simpa [List.isEmpty_iff_length_eq_zero] using he
      by_cases hl : payload.length < 1 + payload.getD 0 0
      · simp [hl, hne]
      · simp [hl, hne]
  · intro registers hok
    unfold bt2ParseReadResponse at hok
    by_cases he : payload.isEmpty
    · rw [if_pos he] at hok
      exact Except.noConfusion hok
    · rw [if_neg he] at hok
      by_cases hl : payload.length < 1 + payload.getD 0 0
      · rw [if_pos hl] at hok
        exact Except.noConfusion hok
      · rw [if_neg hl] at hok
        injection hok with h
        rw [← h]
        simpa using bt2_fold_length payload quantity []

/-- Witness for C8 (amended): quantity 2 against payload `[4, 0, 33, 0, 34]`
(byte count 4, both words present) parses to exactly `min 2 2 = 2`
registers. -/
theorem bt2_read_response_parse_witness :
    bt2ParseReadResponse 2 [4, 0, 33, 0, 34] = .ok [33, 34] ∧
      ([33, 34] : List Nat).length
        = min 2 ((([4, 0, 33, 0, 34] : List Nat).length - 1) / 2) := by
  constructor
  · rfl
  · exact (bt2_read_response_parse 2 [4, 0, 33, 0, 34]).2 [33, 34] (by rfl)

/-- Bytes of a register-word vector, big-endian within each word. -/
def wordsToBytes (regs : List Nat) : List Nat :=
  (regs.map (fun w => [w / 256 % 256, w % 256])).flatten

/-- Modelled from the spec: `Register::parse_registers`, called by
`src/query.rs` line 182, is not defined under `src/`; per spec section 4.2
("concatenate the raw bytes of all words (big-endian within each word)")
the word vector is flattened to bytes and parsed with `parse_value`. -/
def Register.parse_registers (r : Register) (regs : List Nat) : Value :=
  r.parse_value (wordsToBytes regs)

/-- Modelled from the spec: the `Value::as_string` accessor used by
`src/query.rs` is not defined under `src/`; it returns the payload of the
`String` variant and `None` otherwise (the `as_*` family of section 4.6's
helpers). -/
def Value.as_string : Value → Option (List Nat)
  | .string s => some s
  | _ => none

/-- Modelled from the spec: `Value::as_integer`. -/
def Value.as_integer : Value → Option Nat
  | .integer n => some n
  | _ => none

/-- Modelled from the spec: `Value::as_voltage`; the model already carries
volts, so `get::<volt>()` is the identity. -/
def Value.as_voltage : Value → Option ℚ
  | .electricPotential v => some v
  | _ => none

/-- Modelled from the spec: `Value::as_current` (amperes). -/
def Value.as_current : Value → Option ℚ
  | .electricCurrent c => some c
  | _ => none

/-- Modelled from the spec: `Value::as_temperature` (degrees Celsius). -/
def Value.as_temperature : Value → Option ℚ
  | .thermodynamicTemperature t => some t
  | _ => none

/-- Modelled from the spec: `Value::as_status1`. -/
def Value.as_status1 : Value → Option Status1
  | .status1 s => some s
  | _ => none

/-- Modelled from the spec: `Value::as_status2`. -/
def Value.as_status2 : Value → Option Status2
  | .status2 s => some s
  | _ => none

/-- Modelled from the spec: `Value::as_status3`. -/
def Value.as_status3 : Value → Option Status3
  | .status3 s => some s
  | _ => none

/-- Modelled from the spec: `Value::as_other_alarm_info`. -/
def Value.as_other_alarm_info : Value → Option OtherAlarmInfo
  | .otherAlarmInfo a => some a
  | _ => none

/-- Modelled from the spec: `Value::as_cell_voltage_alarms`. -/
def Value.as_cell_voltage_alarms : Value → Option CellVoltageAlarms
  | .cellVoltageAlarms a => some a
  | _ => none

/-- Modelled from the spec: `Value::as_cell_temperature_alarms`. -/
def Value.as_cell_temperature_alarms : Value → Option CellTemperatureAlarms
  | .cellTemperatureAlarms a => some a
  | _ => none

/-- Modelled from the spec: `Value::as_charge_discharge_status`. -/
def Value.as_charge_discharge_status : Value → Option ChargeDischargeStatus
  | .chargeDischargeStatus s => some s
  | _ => none

/-- Rust `str::trim_matches('\x00')`: strip NUL bytes from both ends. -/
def trimNulls (s : List Nat) : List Nat :=
  ((s.dropWhile (· = 0)).reverse.dropWhile (· = 0)).reverse

/-- `BatteryInfo` of `src/query.rs`.  `DateTime<Utc>` is modelled as a
logical clock tick (`Nat`), `String` as trimmed byte lists, `f32` as `ℚ`. -/
structure BatteryInfo where
  timestamp : Nat
  serial : List Nat
  model : List Nat
  software_version : List Nat
  manufacturer : List Nat
  cell_count : Nat
  cell_voltages : List ℚ
  cell_temperatures : List ℚ
  bms_temperature : Option ℚ
  environment_temperatures : List ℚ
  heater_temperatures : List ℚ
  module_voltage : ℚ
  current : ℚ
  remaining_capacity : ℚ
  total_capacity : ℚ
  soc_percent : ℚ
  cycle_count : Nat
  charge_voltage_limit : Option ℚ
  discharge_voltage_limit : Option ℚ
  charge_current_limit : Option ℚ
  discharge_current_limit : Option ℚ
  status1 : Option Status1
  status2 : Option Status2
  status3 : Option Status3
  other_alarm_info : Option OtherAlarmInfo
  cell_voltage_alarms : Option CellVoltageAlarms
  cell_temperature_alarms : Option CellTemperatureAlarms
  charge_discharge_status : Option ChargeDischargeStatus
  deriving DecidableEq, Repr

/-- Transport abstraction for one slave address: for each register, either
the word vector that `read_holding_registers(addr, r.address(),
r.quantity())` yields, or `none` for any transport error.  Time is a
logical clock: each transport read takes one tick, and `Utc::now()` reads
the current tick. -/
structure Oracle where
  read : Register → Option (List Nat)

/-- `read_register` of `src/query.rs`, with the clock threaded. -/
def read_register (o : Oracle) (r : Register) (t : Nat) : Option Value × Nat :=
  ((o.read r).map (fun regs => r.parse_registers regs), t + 1)

/-- `read_string` of `src/query.rs` (`trim_matches('\0')` applied on
success). -/
def read_string (o : Oracle) (r : Register) (t : Nat) : Option (List Nat) × Nat :=
  let rv := read_register o r t
  ((rv.1.bind Value.as_string).map trimNulls, rv.2)

/-- `read_integer` of `src/query.rs`. -/
def read_integer (o : Oracle) (r : Register) (t : Nat) : Option Nat × Nat :=
  let rv := read_register o r t
  (rv.1.bind Value.as_integer, rv.2)

/-- `read_voltage` of `src/query.rs`. -/
def read_voltage (o : Oracle) (r : Register) (t : Nat) : Option ℚ × Nat :=
  let rv := read_register o r t
  (rv.1.bind Value.as_voltage, rv.2)

/-- `read_current` of `src/query.rs`. -/
def read_current (o : Oracle) (r : Register) (t : Nat) : Option ℚ × Nat :=
  let rv := read_register o r t
  (rv.1.bind Value.as_current, rv.2)

/-- `read_temperature` of `src/query.rs`. -/
def read_temperature (o : Oracle) (r : Register) (t : Nat) : Option ℚ × Nat :=
  let rv := read_register o r t
  (rv.1.bind Value.as_temperature, rv.2)

/-- `read_status1` of `src/query.rs`. -/
def read_status1 (o : Oracle) (t : Nat) : Option Status1 × Nat :=
  let rv := read_register o .status1 t
  (rv.1.bind Value.as_status1, rv.2)

/-- `read_status2` of `src/query.rs`. -/
def read_status2 (o : Oracle) (t : Nat) : Option Status2 × Nat :=
  let rv := read_register o .status2 t
  (rv.1.bind Value.as_status2, rv.2)

/-- `read_status3` of `src/query.rs`. -/
def read_status3 (o : Oracle) (t : Nat) : Option Status3 × Nat :=
  let rv := read_register o .status3 t
  (rv.1.bind Value.as_status3, rv.2)

/-- `read_other_alarm_info` of `src/query.rs`. -/
def read_other_alarm_info (o : Oracle) (t : Nat) : Option OtherAlarmInfo × Nat :=
  let rv := read_register o .otherAlarmInfo t
  (rv.1.bind Value.as_other_alarm_info, rv.2)

/-- `read_cell_voltage_alarms` of `src/query.rs`. -/
def read_cell_voltage_alarms (o : Oracle) (t : Nat) : Option CellVoltageAlarms × Nat :=
  let rv := read_register o .cellVoltageAlarmInfo t
  (rv.1.bind Value.as_cell_voltage_alarms, rv.2)

/-- `read_cell_temperature_alarms` of `src/query.rs`. -/
def read_cell_temperature_alarms (o : Oracle) (t : Nat) : Option CellTemperatureAlarms × Nat :=
  let rv := read_register o .cellTemperatureAlarmInfo t
  (rv.1.bind Value.as_cell_temperature_alarms, rv.2)

/-- `read_charge_discharge_status` of `src/query.rs`. -/
def read_charge_discharge_status (o : Oracle) (t : Nat) :
    Option ChargeDischargeStatus × Nat :=
  let rv := read_register o .chargeDischargeStatus t
  (rv.1.bind Value.as_charge_discharge_status, rv.2)

/-- One iteration of the `for i in 1..=n { if let Some(v) = read_X(..) {
xs.push(v) } }` loops of `query_battery`: a success is appended, a failure
skipped; the clock advances either way. -/
def read_series_step (o : Oracle) (rd : Oracle → Register → Nat → Option ℚ × Nat)
    (mk : Nat → Register) (st : List ℚ × Nat) (i : Nat) : List ℚ × Nat :=
  let rv := rd o (mk i) st.2
  ((match rv.1 with
    | some v => st.1 ++ [v]
    | none => st.1), rv.2)

/-- The series-read loops of `query_battery`, folded over `1..=n`. -/
def read_series (o : Oracle) (rd : Oracle → Register → Nat → Option ℚ × Nat)
    (mk : Nat → Register) (n : Nat) (t : Nat) : List ℚ × Nat :=
  (List.range' 1 n).foldl (read_series_step o rd mk) ([], t)

/-- `query_battery` of `src/query.rs` over the oracle transport, returning
the snapshot (or `None`) together with the final clock; `Utc::now()` at
snapshot construction is the clock after the last read. -/
def query_battery_clocked (o : Oracle) (t0 : Nat) : Option BatteryInfo × Nat :=
  let rSerial := read_string o .snNumber t0
  match rSerial.1 with
  | none => (none, rSerial.2)
  | some serial =>
    let rModel := read_string o .batteryName rSerial.2
    let model := rModel.1.getD []
    let rSw := read_string o .softwareVersion rModel.2
    let software_version := rSw.1.getD []
    let rManu := read_string o .manufacturerName rSw.2
    let manufacturer := rManu.1.getD []
    let rCc := read_integer o .cellCount rManu.2
    match rCc.1 with
    | none => (none, rCc.2)
    | some cell_count =>
      let rCv := read_series o read_voltage Register.cellVoltage (min cell_count 16) rCc.2
      let cell_voltages := rCv.1
      let rMv := read_voltage o .moduleVoltage rCv.2
      let module_voltage := rMv.1.getD 0
      let rCur := read_current o .current rMv.2
      let currentVal := rCur.1.getD 0
      let rRem := read_current o .remainingCapacity rCur.2
      let remaining_capacity := rRem.1.getD 0
      let rTot := read_current o .totalCapacity rRem.2
      let total_capacity := rTot.1.getD 0
      let soc_percent :=
        if 0 < total_capacity then remaining_capacity / total_capacity * 100 else 0
      let rCyc := read_integer o .cycleNumber rTot.2
      let cycle_count := rCyc.1.getD 0
      let rCtc := read_integer o .cellTemperatureCount rCyc.2
      let cell_temp_count := rCtc.1.getD 0
      let rCt := read_series o read_temperature Register.cellTemperature
        (min cell_temp_count 16) rCtc.2
      let cell_temperatures := rCt.1
      let rBms := read_temperature o .bmsTemperature rCt.2
      let bms_temperature := rBms.1
      let rEtc := read_integer o .environmentTemperatureCount rBms.2
      let env_temp_count := rEtc.1.getD 0
      let rEt := read_series o read_temperature Register.environmentTemperature
        (min env_temp_count 2) rEtc.2
      let environment_temperatures := rEt.1
      let rHtc := read_integer o .heaterTemperatureCount rEt.2
      let heater_temp_count := rHtc.1.getD 0
      let rHt := read_series o read_temperature Register.heaterTemperature
        (min heater_temp_count 2) rHtc.2
      let heater_temperatures := rHt.1
      let rCvl := read_voltage o .chargeVoltageLimit rHt.2
      let rDvl := read_voltage o .dischargeVoltageLimit rCvl.2
      let rCcl := read_current o .chargeCurrentLimit rDvl.2
      let rDcl := read_current o .dischargeCurrentLimit rCcl.2
      let rS1 := read_status1 o rDcl.2
      let rS2 := read_status2 o rS1.2
      let rS3 := read_status3 o rS2.2
      let rOai := read_other_alarm_info o rS3.2
      let rCva := read_cell_voltage_alarms o rOai.2
      let rCta := read_cell_temperature_alarms o rCva.2
      let rCds := read_charge_discharge_status o rCta.2
      (some ⟨rCds.2, serial, model, software_version, manufacturer, cell_count,
        cell_voltages, cell_temperatures, bms_temperature, environment_temperatures,
        heater_temperatures, module_voltage, currentVal, remaining_capacity,
        total_capacity, soc_percent, cycle_count, rCvl.1, rDvl.1, rCcl.1, rDcl.1,
        rS1.1, rS2.1, rS3.1, rOai.1, rCva.1, rCta.1, rCds.1⟩, rCds.2)

/-- `query_battery`'s return value (the clock dropped). -/
def query_battery (o : Oracle) (t0 : Nat) : Option BatteryInfo :=
  (query_battery_clocked o t0).1

lemma read_series_step_length (o : Oracle) (rd) (mk) (st : List ℚ × Nat) (i : Nat) :
    (read_series_step o rd mk st i).1.length ≤ st.1.length + 1 := by
  unfold read_series_step
  cases h : (rd o (mk i) st.2).1 <;> simp [h]

lemma read_series_foldl_length (o : Oracle) (rd) (mk) (l : List Nat) :
    ∀ st : List ℚ × Nat,
      ((l.foldl (read_series_step o rd mk) st).1.length ≤ st.1.length + l.length) := by
  induction l with
  | nil => intro st; simp
  | cons i l ih =>
    intro st
    rw [List.foldl_cons]
    have h1 := ih (read_series_step o rd mk st i)
    have h2 := read_series_step_length o rd mk st i
    simp only [List.length_cons]
    omega

/-- A series loop pushes at most one element per index, so at most `n` in
total. -/
lemma read_series_length_le (o : Oracle) (rd) (mk) (n t : Nat) :
    (read_series o rd mk n t).1.length ≤ n := by
  have := read_series_foldl_length o rd mk (List.range' 1 n) ([], t)
  simpa using this

lemma read_series_step_clock (o : Oracle) (rd) (mk) (st : List ℚ × Nat) (i : Nat)
    (hrd : ∀ r t, (rd o r t).2 = t + 1) :
    (read_series_step o rd mk st i).2 = st.2 + 1 := by
  show (rd o (mk i) st.2).2 = st.2 + 1
  exact hrd _ _

lemma read_series_foldl_clock (o : Oracle) (rd) (mk) (l : List Nat)
    (hrd : ∀ r t, (rd o r t).2 = t + 1) :
    ∀ st : List ℚ × Nat, (l.foldl (read_series_step o rd mk) st).2 = st.2 + l.length := by
  induction l with
  | nil => intro st; simp
  | cons i l ih =>
    intro st
    rw [List.foldl_cons, ih, read_series_step_clock o rd mk st i hrd]
    simp only [List.length_cons]
    omega

/-- A series loop advances the clock by exactly its trip count. -/
lemma read_series_clock (o : Oracle) (rd) (mk) (n t : Nat)
    (hrd : ∀ r t, (rd o r t).2 = t + 1) :
    (read_series o rd mk n t).2 = t + n := by
  have := read_series_foldl_clock o rd mk (List.range' 1 n) hrd ([], t)
  simpa using this

/-- A series loop over indices that all fail collects nothing. -/
lemma read_series_none (o : Oracle) (rd) (mk) (n t : Nat)
    (h : ∀ i t, (rd o (mk i) t).1 = none) :
    (read_series o rd mk n t).1 = [] := by
  suffices haux : ∀ (l : List Nat) (st : List ℚ × Nat), st.1 = [] →
      (l.foldl (read_series_step o rd mk) st).1 = [] from haux _ _ rfl
  intro l
  induction l with
  | nil => intro st hst; simpa using hst
  | cons i l ih =>
    intro st hst
    rw [List.foldl_cons]
    apply ih
    show (match (rd o (mk i) st.2).1 with
      | some v => st.1 ++ [v]
      | none => st.1) = []
    rw [h i st.2, hst]

lemma as_string_parse_snNumber (ws : List Nat) :
    (Register.parse_registers .snNumber ws).as_string = some (wordsToBytes ws) := rfl

lemma as_integer_parse_cellCount (ws : List Nat) :
    (Register.parse_registers .cellCount ws).as_integer
      = some (beReadU16 (wordsToBytes ws)) := rfl

lemma query_battery_none_iff (o : Oracle) (t0 : Nat) :
    query_battery o t0 = none ↔ o.read .snNumber = none ∨ o.read .cellCount = none := by
  rcases hs : o.read .snNumber with _ | ws
  · simp [query_battery, query_battery_clocked, read_string, read_register, hs]
  · rcases hc : o.read .cellCount with _ | cs
    · simp [query_battery, query_battery_clocked, read_string, read_integer, read_register,
        hs, hc, as_string_parse_snNumber]
    · simp [query_battery, query_battery_clocked, read_string, read_integer, read_register,
        hs, hc, as_string_parse_snNumber, as_integer_parse_cellCount]

lemma query_battery_defaults (o : Oracle) (t0 : Nat) (info : BatteryInfo)
    (h : query_battery o t0 = some info) :
    (o.read .batteryName = none → info.model = []) ∧
    (o.read .softwareVersion = none → info.software_version = []) ∧
    (o.read .manufacturerName = none → info.manufacturer = []) ∧
    (o.read .moduleVoltage = none → info.module_voltage = 0) ∧
    (o.read .current = none → info.current = 0) ∧
    (o.read .remainingCapacity = none → info.remaining_capacity = 0) ∧
    (o.read .totalCapacity = none → info.total_capacity = 0) ∧
    (o.read .cycleNumber = none → info.cycle_count = 0) ∧
    (o.read .bmsTemperature = none → info.bms_temperature = none) ∧
    (o.read .chargeVoltageLimit = none → info.charge_voltage_limit = none) ∧
    (o.read .dischargeVoltageLimit = none → info.discharge_voltage_limit = none) ∧
    (o.read .chargeCurrentLimit = none → info.charge_current_limit = none) ∧
    (o.read .dischargeCurrentLimit = none → info.discharge_current_limit = none) ∧
    (o.read .status1 = none → info.status1 = none) ∧
    (o.read .status2 = none → info.status2 = none) ∧
    (o.read .status3 = none → info.status3 = none) ∧
    (o.read .otherAlarmInfo = none → info.other_alarm_info = none) ∧
    (o.read .cellVoltageAlarmInfo = none → info.cell_voltage_alarms = none) ∧
    (o.read .cellTemperatureAlarmInfo = none → info.cell_temperature_alarms = none) ∧
    (o.read .chargeDischargeStatus = none → info.charge_discharge_status = none) ∧
    ((∀ i, o.read (.cellVoltage i) = none) → info.cell_voltages = []) := by
  rcases hs : o.read .snNumber with _ | ws
  · simp [query_battery, query_battery_clocked, read_string, read_register, hs] at h
  · rcases hc : o.read .cellCount with _ | cs
    · simp [query_battery, query_battery_clocked, read_string, read_integer, read_register,
        hs, hc, as_string_parse_snNumber] at h
    · simp [query_battery, query_battery_clocked, read_string, read_integer, read_register,
        hs, hc, as_string_parse_snNumber, as_integer_parse_cellCount] at h
      subst h
      refine ⟨fun hr => by simp [read_string, read_register, hr],
        fun hr => by simp [read_string, read_register, hr],
        fun hr => by simp [read_string, read_register, hr],
        fun hr => by simp [read_voltage, read_register, hr],
        fun hr => by simp [read_current, read_register, hr],
        fun hr => by simp [read_current, read_register, hr],
        fun hr => by simp [read_current, read_register, hr],
        fun hr => by simp [read_integer, read_register, hr],
        fun hr => by simp [read_temperature, read_register, hr],
        fun hr => by simp [read_voltage, read_register, hr],
        fun hr => by simp [read_voltage, read_register, hr],
        fun hr => by simp [read_current, read_register, hr],
        fun hr => by simp [read_current, read_register, hr],
        fun hr => by simp [read_status1, read_register, hr],
        fun hr => by simp [read_status2, read_register, hr],
        fun hr => by simp [read_status3, read_register, hr],
        fun hr => by simp [read_other_alarm_info, read_register, hr],
        fun hr => by simp [read_cell_voltage_alarms, read_register, hr],
        fun hr => by simp [read_cell_temperature_alarms, read_register, hr],
        fun hr => by simp [read_charge_discharge_status, read_register, hr],
        fun hr => read_series_none _ _ _ _ _
          (fun i t => by simp [read_voltage, read_register, hr i])⟩

/-- Transport oracle on which every read fails except listed word vectors:
all reads succeed with zero words, except the serial number, which fails. -/
def oracleNoSn : Oracle :=
  ⟨fun r => match r with
    | .snNumber => none
    | _ => some (List.replicate r.quantity 0)⟩

/-- Oracle on which every read succeeds with zero words except the
battery-name (model) read, which fails. -/
def oracleNoModel : Oracle :=
  ⟨fun r => match r with
    | .batteryName => none
    | _ => some (List.replicate r.quantity 0)⟩

/-- Oracle on which every read succeeds with zero words except
`CellVoltage(1)`, which fails; the cell count reads as 2. -/
def oracleSkipCell1 : Oracle :=
  ⟨fun r => match r with
    | .cellVoltage 1 => none
    | .cellCount => some [2]
    | _ => some (List.replicate r.quantity 0)⟩

/-- Oracle on which every read succeeds with zero words and the cell count
reads as 17. -/
def oracle17 : Oracle :=
  ⟨fun r => match r with
    | .cellCount => some [17]
    | _ => some (List.replicate r.quantity 0)⟩

/-- Oracle on which every read succeeds, each register word being 1. -/
def oracleAllOnes : Oracle := ⟨fun r => some (List.replicate r.quantity 1)⟩

/-- The snapshot `query_battery` produces over `oracleNoModel` from tick 0.
The query emits a snapshot (the serial and cell-count reads succeed), so the
`Option.get` is well-formed; `Option.isSome` reduces without touching the
rational fields. -/
def batteryInfoZeros : BatteryInfo :=
  (query_battery oracleNoModel 0).get (by decide)

lemma query_battery_oracleNoModel_eq :
    query_battery oracleNoModel 0 = some batteryInfoZeros :=
  (Option.some_get _).symm

/-- C4 counterexample: on `oracleSkipCell1` the `CellVoltage(1)` read fails
while `CellVoltage(2)` succeeds, so the emitted snapshot has
`cell_voltages = [v2]` of length 1 — the field is not left at its empty
default by the failed read. -/
theorem query_battery_default_counterexample :
    oracleSkipCell1.read (.cellVoltage 1) = none ∧
      (query_battery oracleSkipCell1 0).map (fun i => i.cell_voltages.length) = some 1 ∧
      (1 : Nat) ≠ 0 :=
  ⟨rfl, rfl, by decide⟩

/-- C4 (amended): `query_battery` returns `None` exactly when the
serial-number read or the `cell_count` read fails; when both succeed it
always returns a snapshot, every failed single-read field is left at its
zero/empty/`None` default, and a per-cell series read that fails merely
skips its element (the series is empty when every element read fails). -/
theorem query_battery_none_iff_and_partial_defaults (o : Oracle) (t0 : Nat) :
    (query_battery o t0 = none ↔ o.read .snNumber = none ∨ o.read .cellCount = none) ∧
    (∀ info, query_battery o t0 = some info →
      (o.read .batteryName = none → info.model = []) ∧
      (o.read .softwareVersion = none → info.software_version = []) ∧
      (o.read .manufacturerName = none → info.manufacturer = []) ∧
      (o.read .moduleVoltage = none → info.module_voltage = 0) ∧
      (o.read .current = none → info.current = 0) ∧
      (o.read .remainingCapacity = none → info.remaining_capacity = 0) ∧
      (o.read .totalCapacity = none → info.total_capacity = 0) ∧
      (o.read .cycleNumber = none → info.cycle_count = 0) ∧
      (o.read .bmsTemperature = none → info.bms_temperature = none) ∧
      (o.read .chargeVoltageLimit = none → info.charge_voltage_limit = none) ∧
      (o.read .dischargeVoltageLimit = none → info.discharge_voltage_limit = none) ∧
      (o.read .chargeCurrentLimit = none → info.charge_current_limit = none) ∧
      (o.read .dischargeCurrentLimit = none → info.discharge_current_limit = none) ∧
      (o.read .status1 = none → info.status1 = none) ∧
      (o.read .status2 = none → info.status2 = none) ∧
      (o.read .status3 = none → info.status3 = none) ∧
      (o.read .otherAlarmInfo = none → info.other_alarm_info = none) ∧
      (o.read .cellVoltageAlarmInfo = none → info.cell_voltage_alarms = none) ∧
      (o.read .cellTemperatureAlarmInfo = none → info.cell_temperature_alarms = none) ∧
      (o.read .chargeDischargeStatus = none → info.charge_discharge_status = none) ∧
      ((∀ i, o.read (.cellVoltage i) = none) → info.cell_voltages = [])) :=
  ⟨query_battery_none_iff o t0, fun info h => query_battery_defaults o t0 info h⟩

/-- Witness for C4 (amended): the serial-read failure of `oracleNoSn` makes
the query `None`, and on `oracleNoModel` the failed model read leaves the
model field empty. -/
theorem query_battery_none_iff_and_partial_defaults_witness :
    query_battery oracleNoSn 0 = none ∧ batteryInfoZeros.model = [] :=
  ⟨(query_battery_none_iff_and_partial_defaults oracleNoSn 0).1.mpr (Or.inl rfl),
    ((query_battery_none_iff_and_partial_defaults oracleNoModel 0).2 batteryInfoZeros
      query_battery_oracleNoModel_eq).1 rfl⟩

/-- C5 counterexample: on `oracle17` the device reports 17 cells, and the
emitted snapshot's `cell_count` field is 17 > 16 — only the series lengths
are capped, not the count itself. -/
theorem query_battery_cell_count_counterexample :
    (query_battery oracle17 0).map (fun i => i.cell_count) = some 17 ∧ ¬ (17 ≤ 16) :=
  ⟨rfl, by decide⟩

/-- C5 (amended): every emitted snapshot satisfies
`cell_voltages.len ≤ min cell_count 16`, `cell_temperatures.len ≤ 16`,
`environment_temperatures.len ≤ 2` and `heater_temperatures.len ≤ 2`; the
`cell_count` field itself is the device-reported value and is not capped at
16. -/
theorem query_battery_series_bounds (o : Oracle) (t0 : Nat) (info : BatteryInfo)
    (h : query_battery o t0 = some info) :
    info.cell_voltages.length ≤ min info.cell_count 16 ∧
    info.cell_temperatures.length ≤ 16 ∧
    info.environment_temperatures.length ≤ 2 ∧
    info.heater_temperatures.length ≤ 2 := by
  rcases hs : o.read .snNumber with _ | ws
  · simp [query_battery, query_battery_clocked, read_string, read_register, hs] at h
  · rcases hc : o.read .cellCount with _ | cs
    · simp [query_battery, query_battery_clocked, read_string, read_integer, read_register,
        hs, hc, as_string_parse_snNumber] at h
    · simp [query_battery, query_battery_clocked, read_string, read_integer, read_register,
        hs, hc, as_string_parse_snNumber, as_integer_parse_cellCount] at h
      subst h
      refine ⟨?_, ?_, ?_, ?_⟩
      · exact read_series_length_le _ _ _ _ _
      · exact le_trans (read_series_length_le _ _ _ _ _) (Nat.min_le_right _ _)
      · exact le_trans (read_series_length_le _ _ _ _ _) (Nat.min_le_right _ _)
      · exact le_trans (read_series_length_le _ _ _ _ _) (Nat.min_le_right _ _)

/-- Witness for C5: the all-zero snapshot over `oracleNoModel` satisfies all
four series bounds. -/
theorem query_battery_series_bounds_witness :
    batteryInfoZeros.cell_voltages.length ≤ min batteryInfoZeros.cell_count 16 ∧
    batteryInfoZeros.cell_temperatures.length ≤ 16 ∧
    batteryInfoZeros.environment_temperatures.length ≤ 2 ∧
    batteryInfoZeros.heater_temperatures.length ≤ 2 :=
  query_battery_series_bounds oracleNoModel 0 batteryInfoZeros
    query_battery_oracleNoModel_eq

/-- The clock tick at which `query_battery`'s first identity read (the
serial number) completes. -/
def serial_read_completion (o : Oracle) (t0 : Nat) : Nat :=
  (read_string o .snNumber t0).2

/-- C6 counterexample: on `oracleAllOnes` every read succeeds; the serial
read completes at tick 1, while the emitted snapshot's timestamp is tick 29
(after all 29 reads) — a strictly later instant. -/
theorem query_battery_timestamp_counterexample :
    (query_battery oracleAllOnes 0).map (fun i => i.timestamp) = some 29 ∧
      serial_read_completion oracleAllOnes 0 = 1 ∧ (29 : Nat) ≠ 1 :=
  ⟨rfl, rfl, by decide⟩

/-- C6 (amended): the snapshot's timestamp is taken when the snapshot is
assembled, after all register reads complete — it equals the final clock of
the query and is strictly later than the completion of the serial read. -/
theorem query_battery_timestamp_after_all_reads (o : Oracle) (t0 : Nat)
    (info : BatteryInfo) (h : query_battery o t0 = some info) :
    info.timestamp = (query_battery_clocked o t0).2 ∧
      serial_read_completion o t0 < info.timestamp := by
  rcases hs : o.read .snNumber with _ | ws
  · simp [query_battery, query_battery_clocked, read_string, read_register, hs] at h
  · rcases hc : o.read .cellCount with _ | cs
    · simp [query_battery, query_battery_clocked, read_string, read_integer, read_register,
        hs, hc, as_string_parse_snNumber] at h
    · have hvs : ∀ mk n t, (read_series o read_voltage mk n t).2 = t + n :=
        fun mk n t => read_series_clock o read_voltage mk n t (fun r t => rfl)
      have hts : ∀ mk n t, (read_series o read_temperature mk n t).2 = t + n :=
        fun mk n t => read_series_clock o read_temperature mk n t (fun r t => rfl)
      simp [query_battery, query_battery_clocked, read_string, read_integer, read_register,
        read_voltage, read_current, read_temperature, read_status1, read_status2,
        read_status3, read_other_alarm_info, read_cell_voltage_alarms,
        read_cell_temperature_alarms, read_charge_discharge_status,
        hs, hc, as_string_parse_snNumber, as_integer_parse_cellCount, hvs, hts] at h
      subst h
      constructor
      · simp [query_battery_clocked, read_string, read_integer, read_register,
          read_voltage, read_current, read_temperature, read_status1, read_status2,
          read_status3, read_other_alarm_info, read_cell_voltage_alarms,
          read_cell_temperature_alarms, read_charge_discharge_status,
          hs, hc, as_string_parse_snNumber, as_integer_parse_cellCount, hvs, hts]
      · simp only [serial_read_completion, read_string, read_register]
        omega

/-- Witness for C6 (amended) on the all-zero snapshot over `oracleNoModel`:
its timestamp (tick 25) is the query's final clock and is later than the
serial read's completion (tick 1). -/
theorem query_battery_timestamp_after_all_reads_witness :
    batteryInfoZeros.timestamp = (query_battery_clocked oracleNoModel 0).2 ∧
      serial_read_completion oracleNoModel 0 < batteryInfoZeros.timestamp :=
  query_battery_timestamp_after_all_reads oracleNoModel 0 batteryInfoZeros
    query_battery_oracleNoModel_eq

end Renogy
